import Mathlib

set_option maxHeartbeats 1000000

/-!
Verification development for the GestureFlow pose-analysis engine.

The frame analyzer (`src/lib/gestureAnalysis.ts`) is embedded over the real
numbers: JavaScript `number` values are modeled as `ℝ`, `Math.sqrt` as
`Real.sqrt`, `Math.acos` as `Real.arccos`, `Math.round` as `round : ℝ → ℤ`
(JavaScript rounds half toward positive infinity, which is exactly
`round x = ⌊x + 1/2⌋`).  The session tracker (`useSession`) only consumes the
integer-valued rounded fields of an analysis result together with wall-clock
millisecond timestamps, so it is embedded computably over `ℤ` and `ℚ`.
-/

namespace GestureFlow

/-- A pose landmark: normalized coordinates, optional depth and optional
visibility confidence (interface `Point` in src/lib/gestureAnalysis.ts). -/
structure Point where
  x : ℝ
  y : ℝ
  z : Option ℝ := none
  visibility : Option ℝ := none

-- Landmark indices (MediaPipe BlazePose 33), `LM` in src/lib/gestureAnalysis.ts.
namespace LM

def NOSE : ℕ := 0

def LEFT_EYE : ℕ := 2

def RIGHT_EYE : ℕ := 5

def LEFT_SHOULDER : ℕ := 11

def RIGHT_SHOULDER : ℕ := 12

def LEFT_ELBOW : ℕ := 13

def RIGHT_ELBOW : ℕ := 14

def LEFT_WRIST : ℕ := 15

def RIGHT_WRIST : ℕ := 16

def LEFT_PINKY : ℕ := 17

def RIGHT_PINKY : ℕ := 18

def LEFT_INDEX : ℕ := 19

def RIGHT_INDEX : ℕ := 20

def LEFT_THUMB : ℕ := 21

def RIGHT_THUMB : ℕ := 22

def LEFT_HIP : ℕ := 23

def RIGHT_HIP : ℕ := 24

end LM

/-- `angleBetween` (src/lib/gestureAnalysis.ts): interior angle at `b` of the
triangle `a b c`, in degrees; `0` when either leg is degenerate. -/
noncomputable def angleBetween (a b c : Point) : ℝ :=
  let abx := a.x - b.x
  let aby := a.y - b.y
  let cbx := c.x - b.x
  let cby := c.y - b.y
  let dot := abx * cbx + aby * cby
  let magAB := Real.sqrt (abx ^ 2 + aby ^ 2)
  let magCB := Real.sqrt (cbx ^ 2 + cby ^ 2)
  if magAB = 0 ∨ magCB = 0 then 0
  else
    let cos := max (-1) (min 1 (dot / (magAB * magCB)))
    Real.arccos cos * 180 / Real.pi

/-- `dist2d` (src/lib/gestureAnalysis.ts): planar Euclidean distance. -/
noncomputable def dist2d (a b : Point) : ℝ :=
  Real.sqrt ((a.x - b.x) ^ 2 + (a.y - b.y) ^ 2)

/-- `clamp` (src/lib/gestureAnalysis.ts): `Math.max(lo, Math.min(hi, v))`,
defaulting to the range `[0, 100]`. -/
noncomputable def clamp (v : ℝ) (lo : ℝ := 0) (hi : ℝ := 100) : ℝ :=
  max lo (min hi v)

/-- `isVisible` (src/lib/gestureAnalysis.ts): `(lm.visibility ?? 1) > threshold`. -/
noncomputable def isVisible (lm : Point) (threshold : ℝ := 0.3) : Bool :=
  decide (lm.visibility.getD 1 > threshold)

/-- `armQuality` (src/lib/gestureAnalysis.ts): inverted parabola peaking at
110 degrees, clamped to `[0, 100]`. -/
noncomputable def armQuality (angle : ℝ) : ℝ :=
  let delta := (angle - 110) / 70
  clamp (100 - delta * delta * 100)

/-- JS array indexing `landmarks[i]`, which yields `undefined` out of range. -/
def lmOpt (lms : List Point) (i : ℕ) : Option Point := lms[i]?

/-- Total landmark accessor used by the pure analyzer model.  On any input that
contains the indexed body points (the domain of claims about well-formed
results) the default is never consulted; the actual JS behaviour on an absent
entry — a thrown TypeError inside `isVisible` — is modeled separately by
`analyzeGestureE`. -/
def lmD (lms : List Point) (i : ℕ) : Point := (lmOpt lms i).getD ⟨0, 0, none, none⟩

/-- `leftArmAngle` (src/lib/gestureAnalysis.ts line 117): elbow angle
shoulder-elbow-wrist, defaulting to 90 when any of the three points is not
visible. -/
noncomputable def leftArmAngle (lms : List Point) : ℝ :=
  if isVisible (lmD lms LM.LEFT_SHOULDER) && isVisible (lmD lms LM.LEFT_ELBOW) &&
      isVisible (lmD lms LM.LEFT_WRIST) then
    angleBetween (lmD lms LM.LEFT_SHOULDER) (lmD lms LM.LEFT_ELBOW) (lmD lms LM.LEFT_WRIST)
  else 90

/-- `rightArmAngle` (src/lib/gestureAnalysis.ts line 120). -/
noncomputable def rightArmAngle (lms : List Point) : ℝ :=
  if isVisible (lmD lms LM.RIGHT_SHOULDER) && isVisible (lmD lms LM.RIGHT_ELBOW) &&
      isVisible (lmD lms LM.RIGHT_WRIST) then
    angleBetween (lmD lms LM.RIGHT_SHOULDER) (lmD lms LM.RIGHT_ELBOW) (lmD lms LM.RIGHT_WRIST)
  else 90

/-- `shoulderWidth` (src/lib/gestureAnalysis.ts line 125). -/
noncomputable def shoulderWidth (lms : List Point) : ℝ :=
  if isVisible (lmD lms LM.LEFT_SHOULDER) && isVisible (lmD lms LM.RIGHT_SHOULDER) then
    |(lmD lms LM.RIGHT_SHOULDER).x - (lmD lms LM.LEFT_SHOULDER).x|
  else 0.3

/-- `wristSpan` (src/lib/gestureAnalysis.ts line 130). -/
noncomputable def wristSpan (lms : List Point) : ℝ :=
  if isVisible (lmD lms LM.LEFT_WRIST) && isVisible (lmD lms LM.RIGHT_WRIST) then
    |(lmD lms LM.RIGHT_WRIST).x - (lmD lms LM.LEFT_WRIST).x|
  else 0

/-- `handSpread` (src/lib/gestureAnalysis.ts line 131). -/
noncomputable def handSpread (lms : List Point) : ℝ :=
  if shoulderWidth lms > 0 then wristSpan lms / shoulderWidth lms else 0

/-- `hipY` (src/lib/gestureAnalysis.ts line 134). -/
noncomputable def hipY (lms : List Point) : ℝ :=
  if isVisible (lmD lms LM.LEFT_HIP) && isVisible (lmD lms LM.RIGHT_HIP) then
    ((lmD lms LM.LEFT_HIP).y + (lmD lms LM.RIGHT_HIP).y) / 2
  else 0.7

/-- `handsAboveWaist` (src/lib/gestureAnalysis.ts lines 135-136). -/
noncomputable def handsAboveWaist (lms : List Point) : Bool :=
  (!isVisible (lmD lms LM.LEFT_WRIST) || decide ((lmD lms LM.LEFT_WRIST).y < hipY lms)) &&
  (!isVisible (lmD lms LM.RIGHT_WRIST) || decide ((lmD lms LM.RIGHT_WRIST).y < hipY lms))

/-- `shoulderMidY` (src/lib/gestureAnalysis.ts line 144). -/
noncomputable def shoulderMidY (lms : List Point) : ℝ :=
  if isVisible (lmD lms LM.LEFT_SHOULDER) && isVisible (lmD lms LM.RIGHT_SHOULDER) then
    ((lmD lms LM.LEFT_SHOULDER).y + (lmD lms LM.RIGHT_SHOULDER).y) / 2
  else 0.4

/-- `noseAboveShoulder` (src/lib/gestureAnalysis.ts lines 145-148). -/
noncomputable def noseAboveShoulder (lms : List Point) : ℝ :=
  if isVisible (lmD lms LM.NOSE) && isVisible (lmD lms LM.LEFT_SHOULDER) &&
      isVisible (lmD lms LM.RIGHT_SHOULDER) && decide (shoulderWidth lms > 0) then
    (shoulderMidY lms - (lmD lms LM.NOSE).y) / shoulderWidth lms
  else 0.5

/-- `isHeadDown` (src/lib/gestureAnalysis.ts line 149). -/
noncomputable def isHeadDown (lms : List Point) : Bool :=
  decide (noseAboveShoulder lms < 0.45)

/-- `eyeWidth` (src/lib/gestureAnalysis.ts lines 156-159); eyes use the higher
visibility threshold 0.5. -/
noncomputable def eyeWidth (lms : List Point) : ℝ :=
  if isVisible (lmD lms LM.LEFT_EYE) 0.5 && isVisible (lmD lms LM.RIGHT_EYE) 0.5 then
    |(lmD lms LM.RIGHT_EYE).x - (lmD lms LM.LEFT_EYE).x|
  else 0

/-- `shoulderToEyeRatio` (src/lib/gestureAnalysis.ts line 160). -/
noncomputable def shoulderToEyeRatio (lms : List Point) : ℝ :=
  if eyeWidth lms > 0.015 then shoulderWidth lms / eyeWidth lms else 6.0

/-- `isShoulderRolled` (src/lib/gestureAnalysis.ts line 161). -/
noncomputable def isShoulderRolled (lms : List Point) : Bool :=
  decide (eyeWidth lms > 0.015) && decide (shoulderToEyeRatio lms < 4.5)

/-- `isSlouching` (src/lib/gestureAnalysis.ts line 163): either slouch cue alone
raises the flag. -/
noncomputable def isSlouching (lms : List Point) : Bool :=
  isHeadDown lms || isShoulderRolled lms

/-- `shoulderY` (src/lib/gestureAnalysis.ts line 166). -/
noncomputable def shoulderY (lms : List Point) : ℝ :=
  if isVisible (lmD lms LM.LEFT_SHOULDER) && isVisible (lmD lms LM.RIGHT_SHOULDER) then
    ((lmD lms LM.LEFT_SHOULDER).y + (lmD lms LM.RIGHT_SHOULDER).y) / 2
  else 0.35

/-- `zoneScore` (src/lib/gestureAnalysis.ts lines 167-172).  The source closure
captures `shoulderY` and `hipY`; here they are passed explicitly. -/
noncomputable def zoneScore (shoulderY hipY : ℝ) (wrist : Point) (visible : Bool) : ℝ :=
  if !visible then 60
  else if wrist.y > shoulderY ∧ wrist.y < hipY then 100
  else if wrist.y ≤ shoulderY then 65
  else 20

/-- `powerZoneScore` (src/lib/gestureAnalysis.ts lines 173-175). -/
noncomputable def powerZoneScore (lms : List Point) : ℝ :=
  (zoneScore (shoulderY lms) (hipY lms) (lmD lms LM.LEFT_WRIST)
      (isVisible (lmD lms LM.LEFT_WRIST)) +
   zoneScore (shoulderY lms) (hipY lms) (lmD lms LM.RIGHT_WRIST)
      (isVisible (lmD lms LM.RIGHT_WRIST))) / 2

/-- `fidgeting` (src/lib/gestureAnalysis.ts lines 178-181): a wrist within
`faceDist = 0.18` of the nose. -/
noncomputable def fidgeting (lms : List Point) : Bool :=
  (isVisible (lmD lms LM.LEFT_WRIST) &&
    decide (dist2d (lmD lms LM.LEFT_WRIST) (lmD lms LM.NOSE) < 0.18)) ||
  (isVisible (lmD lms LM.RIGHT_WRIST) &&
    decide (dist2d (lmD lms LM.RIGHT_WRIST) (lmD lms LM.NOSE) < 0.18))

/-- `leftExtend` (src/lib/gestureAnalysis.ts line 184). -/
noncomputable def leftExtend (lms : List Point) : ℝ :=
  if isVisible (lmD lms LM.LEFT_SHOULDER) && isVisible (lmD lms LM.LEFT_WRIST) then
    dist2d (lmD lms LM.LEFT_SHOULDER) (lmD lms LM.LEFT_WRIST)
  else 0

/-- `rightExtend` (src/lib/gestureAnalysis.ts line 185). -/
noncomputable def rightExtend (lms : List Point) : ℝ :=
  if isVisible (lmD lms LM.RIGHT_SHOULDER) && isVisible (lmD lms LM.RIGHT_WRIST) then
    dist2d (lmD lms LM.RIGHT_SHOULDER) (lmD lms LM.RIGHT_WRIST)
  else 0

/-- `maxExt` (src/lib/gestureAnalysis.ts line 186): `Math.max(l, r, 0.001)`. -/
noncomputable def maxExt (lms : List Point) : ℝ :=
  max (leftExtend lms) (max (rightExtend lms) 0.001)

/-- `symmetry` (src/lib/gestureAnalysis.ts line 187), before rounding. -/
noncomputable def symmetry (lms : List Point) : ℝ :=
  clamp (100 - |leftExtend lms - rightExtend lms| / maxExt lms * 100)

/-- `extRatio` (src/lib/gestureAnalysis.ts line 190). -/
noncomputable def extRatio (lms : List Point) : ℝ :=
  min (leftExtend lms) (rightExtend lms) / maxExt lms

/-- `isAsymmetric` (src/lib/gestureAnalysis.ts line 191). -/
noncomputable def isAsymmetric (lms : List Point) : Bool :=
  decide (extRatio lms < 0.65) && decide (maxExt lms > shoulderWidth lms * 0.6)

/-- `leftOpenness` (src/lib/gestureAnalysis.ts lines 194-195). -/
noncomputable def leftOpenness (lms : List Point) : ℝ :=
  if isVisible (lmD lms LM.LEFT_INDEX) && isVisible (lmD lms LM.LEFT_THUMB) then
    clamp (dist2d (lmD lms LM.LEFT_INDEX) (lmD lms LM.LEFT_THUMB) * 1000)
  else 50

/-- `rightOpenness` (src/lib/gestureAnalysis.ts lines 196-197). -/
noncomputable def rightOpenness (lms : List Point) : ℝ :=
  if isVisible (lmD lms LM.RIGHT_INDEX) && isVisible (lmD lms LM.RIGHT_THUMB) then
    clamp (dist2d (lmD lms LM.RIGHT_INDEX) (lmD lms LM.RIGHT_THUMB) * 1000)
  else 50

/-- `handOpenness` (src/lib/gestureAnalysis.ts line 198). -/
noncomputable def handOpenness (lms : List Point) : ℝ :=
  (leftOpenness lms + rightOpenness lms) / 2

/-- `postureScore` (src/lib/gestureAnalysis.ts line 201). -/
noncomputable def postureScore (lms : List Point) : ℝ :=
  clamp (shoulderWidth lms * 350)

/-- `armScore` (src/lib/gestureAnalysis.ts line 204). -/
noncomputable def armScore (lms : List Point) : ℝ :=
  (armQuality (leftArmAngle lms) + armQuality (rightArmAngle lms)) / 2

/-- The impact score before the final clamp (src/lib/gestureAnalysis.ts lines
209-219): the weighted sum plus the hand-spread bonus, with the fidgeting and
slouching penalties applied as in the two `impact -=` statements. -/
noncomputable def impactRaw (lms : List Point) : ℝ :=
  armScore lms * 0.30 + powerZoneScore lms * 0.25 + (handOpenness lms / 100) * 20 +
      postureScore lms * 0.15 + symmetry lms * 0.05 +
      (if handSpread lms > 0.9 then 15 else handSpread lms * 12) -
    (if fidgeting lms then 25 else 0) -
    (if isSlouching lms then 35 else 0)

/-- The impact score after `impact = clamp(impact)` (src/lib/gestureAnalysis.ts
line 220). -/
noncomputable def impactFinal (lms : List Point) : ℝ :=
  clamp (impactRaw lms)

/-- The gesture labels (`GestureType` in src/lib/gestureAnalysis.ts).  The
string literals of the source are mapped to constructors. -/
inductive GestureType where
  | OPEN_GESTURE
  | POWER_POSE
  | STEEPLE
  | POINTING
  | EMPHASIS
  | WIDE_STANCE
  | REST
deriving DecidableEq, Repr

/-- `leftArmUp` (src/lib/gestureAnalysis.ts line 223). -/
noncomputable def leftArmUp (lms : List Point) : Bool :=
  isVisible (lmD lms LM.LEFT_WRIST) &&
    decide ((lmD lms LM.LEFT_WRIST).y < (lmD lms LM.LEFT_SHOULDER).y)

/-- `rightArmUp` (src/lib/gestureAnalysis.ts line 224). -/
noncomputable def rightArmUp (lms : List Point) : Bool :=
  isVisible (lmD lms LM.RIGHT_WRIST) &&
    decide ((lmD lms LM.RIGHT_WRIST).y < (lmD lms LM.RIGHT_SHOULDER).y)

/-- `leftStraight` (src/lib/gestureAnalysis.ts line 225). -/
noncomputable def leftStraight (lms : List Point) : Bool :=
  decide (leftArmAngle lms > 120)

/-- `rightStraight` (src/lib/gestureAnalysis.ts line 226). -/
noncomputable def rightStraight (lms : List Point) : Bool :=
  decide (rightArmAngle lms > 120)

/-- `handsClose` (src/lib/gestureAnalysis.ts lines 227-228). -/
noncomputable def handsClose (lms : List Point) : Bool :=
  isVisible (lmD lms LM.LEFT_WRIST) && isVisible (lmD lms LM.RIGHT_WRIST) &&
    decide (dist2d (lmD lms LM.LEFT_WRIST) (lmD lms LM.RIGHT_WRIST) < 0.16)

/-- `handsAtChest` (src/lib/gestureAnalysis.ts lines 229-232).  The source
writes `(lS.y ?? 0)` but `y` is a plain number, so `??` never substitutes. -/
noncomputable def handsAtChest (lms : List Point) : Bool :=
  isVisible (lmD lms LM.LEFT_WRIST) && isVisible (lmD lms LM.RIGHT_WRIST) &&
    decide ((lmD lms LM.LEFT_WRIST).y > (lmD lms LM.LEFT_SHOULDER).y) &&
    decide ((lmD lms LM.LEFT_WRIST).y < (lmD lms LM.LEFT_HIP).y) &&
    decide ((lmD lms LM.RIGHT_WRIST).y > (lmD lms LM.RIGHT_SHOULDER).y) &&
    decide ((lmD lms LM.RIGHT_WRIST).y < (lmD lms LM.RIGHT_HIP).y)

/-- The classification cascade (src/lib/gestureAnalysis.ts lines 234-248),
parameterized by the feature values the source computes just above it:
an ordered if chain, first match wins. -/
noncomputable def classifyGesture (leftArmUp rightArmUp : Bool) (handSpread : ℝ)
    (leftStraight rightStraight handsClose handsAtChest isAsymmetric : Bool)
    (impact postureScore : ℝ) (handsAboveWaist : Bool) : GestureType :=
  if leftArmUp && rightArmUp && decide (handSpread > 1.1) then .POWER_POSE
  else if decide (handSpread > 0.9) || (leftStraight && rightStraight) then .OPEN_GESTURE
  else if handsClose && handsAtChest then .STEEPLE
  else if isAsymmetric then .POINTING
  else if decide (impact > 45) then .EMPHASIS
  else if decide (postureScore > 60) && !handsAboveWaist then .WIDE_STANCE
  else .REST

/-- The classified gesture of a frame. -/
noncomputable def gesture (lms : List Point) : GestureType :=
  classifyGesture (leftArmUp lms) (rightArmUp lms) (handSpread lms) (leftStraight lms)
    (rightStraight lms) (handsClose lms) (handsAtChest lms) (isAsymmetric lms)
    (impactFinal lms) (postureScore lms) (handsAboveWaist lms)

/-- `isPowerMove` (src/lib/gestureAnalysis.ts line 250). -/
noncomputable def isPowerMove (lms : List Point) : Bool :=
  decide (gesture lms = .POWER_POSE) || decide (gesture lms = .OPEN_GESTURE)

/-- `GestureResult` (src/lib/gestureAnalysis.ts).  Fields produced through
`Math.round` are integers and typed `ℤ`. -/
structure GestureResult where
  gesture : GestureType
  impact : ℤ
  armAngleLeft : ℤ
  armAngleRight : ℤ
  shoulderWidth : ℝ
  handsAboveWaist : Bool
  symmetry : ℤ
  fidgeting : Bool
  isPowerMove : Bool
  isSlouching : Bool
  noseAboveShoulder : ℝ
  shoulderToEyeRatio : ℝ

/-- `analyzeGesture` (src/lib/gestureAnalysis.ts lines 99-266), on inputs that
contain the indexed body points. -/
noncomputable def analyzeGesture (lms : List Point) : GestureResult where
  gesture := gesture lms
  impact := round (impactFinal lms)
  armAngleLeft := round (leftArmAngle lms)
  armAngleRight := round (rightArmAngle lms)
  shoulderWidth := shoulderWidth lms
  handsAboveWaist := handsAboveWaist lms
  symmetry := round (symmetry lms)
  fidgeting := fidgeting lms
  isPowerMove := isPowerMove lms
  isSlouching := isSlouching lms
  noseAboveShoulder := (round (noseAboveShoulder lms * 100) : ℝ) / 100
  shoulderToEyeRatio := (round (shoulderToEyeRatio lms * 10) : ℝ) / 10

/-- `isVisible` applied to a possibly-`undefined` landmark, exactly as the JS
runtime evaluates it: reading `.visibility` of `undefined` throws a TypeError. -/
noncomputable def isVisibleE (olm : Option Point) (threshold : ℝ := 0.3) :
    Except String Bool :=
  match olm with
  | none => .error "TypeError: cannot read visibility of undefined"
  | some lm => .ok (isVisible lm threshold)

/-- JS short-circuit `&&` over boolean computations that may throw. -/
def andE (a b : Except String Bool) : Except String Bool := do
  let x ← a
  if x then b else pure false

/-- `analyzeGesture` with the exact JS evaluation semantics for the landmark
array: an index beyond the end of the collection yields `undefined`, and the
first `isVisible` call on such an entry throws.  Visibility reads are performed
in source order with JS short-circuiting; all arithmetic is as in the pure
model. -/
noncomputable def analyzeGestureE (landmarks : List Point) : Except String GestureResult := do
  let pt : Option Point → Point := fun o => o.getD ⟨0, 0, none, none⟩
  let lEye := landmarks[LM.LEFT_EYE]?
  let rEye := landmarks[LM.RIGHT_EYE]?
  let lS := landmarks[LM.LEFT_SHOULDER]?
  let rS := landmarks[LM.RIGHT_SHOULDER]?
  let lE := landmarks[LM.LEFT_ELBOW]?
  let rE := landmarks[LM.RIGHT_ELBOW]?
  let lW := landmarks[LM.LEFT_WRIST]?
  let rW := landmarks[LM.RIGHT_WRIST]?
  let lH := landmarks[LM.LEFT_HIP]?
  let rH := landmarks[LM.RIGHT_HIP]?
  let nose := landmarks[LM.NOSE]?
  let lI := landmarks[LM.LEFT_INDEX]?
  let rI := landmarks[LM.RIGHT_INDEX]?
  let lT := landmarks[LM.LEFT_THUMB]?
  let rT := landmarks[LM.RIGHT_THUMB]?
  let cL ← andE (isVisibleE lS) (andE (isVisibleE lE) (isVisibleE lW))
  let leftArmAngle := if cL then angleBetween (pt lS) (pt lE) (pt lW) else 90
  let cR ← andE (isVisibleE rS) (andE (isVisibleE rE) (isVisibleE rW))
  let rightArmAngle := if cR then angleBetween (pt rS) (pt rE) (pt rW) else 90
  let cSh ← andE (isVisibleE lS) (isVisibleE rS)
  let shoulderWidth := if cSh then |(pt rS).x - (pt lS).x| else 0.3
  let cWr ← andE (isVisibleE lW) (isVisibleE rW)
  let wristSpan := if cWr then |(pt rW).x - (pt lW).x| else 0
  let handSpread := if shoulderWidth > 0 then wristSpan / shoulderWidth else 0
  let cHip ← andE (isVisibleE lH) (isVisibleE rH)
  let hipY := if cHip then ((pt lH).y + (pt rH).y) / 2 else 0.7
  let vLW ← isVisibleE lW
  let hawLeft := !vLW || decide ((pt lW).y < hipY)
  let handsAboveWaist ← if hawLeft then do
      let vRW ← isVisibleE rW
      pure (!vRW || decide ((pt rW).y < hipY))
    else pure false
  let cSm ← andE (isVisibleE lS) (isVisibleE rS)
  let shoulderMidY := if cSm then ((pt lS).y + (pt rS).y) / 2 else 0.4
  let cNs ← andE (isVisibleE nose) (andE (isVisibleE lS) (isVisibleE rS))
  let noseAboveShoulder :=
    if cNs && decide (shoulderWidth > 0) then (shoulderMidY - (pt nose).y) / shoulderWidth
    else 0.5
  let isHeadDown := decide (noseAboveShoulder < 0.45)
  let cEye ← andE (isVisibleE lEye 0.5) (isVisibleE rEye 0.5)
  let eyeWidth := if cEye then |(pt rEye).x - (pt lEye).x| else 0
  let shoulderToEyeRatio := if eyeWidth > 0.015 then shoulderWidth / eyeWidth else 6.0
  let isShoulderRolled := decide (eyeWidth > 0.015) && decide (shoulderToEyeRatio < 4.5)
  let isSlouching := isHeadDown || isShoulderRolled
  let cSy ← andE (isVisibleE lS) (isVisibleE rS)
  let shoulderY := if cSy then ((pt lS).y + (pt rS).y) / 2 else 0.35
  let vLWz ← isVisibleE lW
  let vRWz ← isVisibleE rW
  let powerZoneScore :=
    (zoneScore shoulderY hipY (pt lW) vLWz + zoneScore shoulderY hipY (pt rW) vRWz) / 2
  let vLWf ← isVisibleE lW
  let leftFidget := vLWf && decide (dist2d (pt lW) (pt nose) < 0.18)
  let vRWf ← isVisibleE rW
  let rightFidget := vRWf && decide (dist2d (pt rW) (pt nose) < 0.18)
  let fidgeting := leftFidget || rightFidget
  let cLe ← andE (isVisibleE lS) (isVisibleE lW)
  let leftExtend := if cLe then dist2d (pt lS) (pt lW) else 0
  let cRe ← andE (isVisibleE rS) (isVisibleE rW)
  let rightExtend := if cRe then dist2d (pt rS) (pt rW) else 0
  let maxExt := max leftExtend (max rightExtend 0.001)
  let symmetry := clamp (100 - |leftExtend - rightExtend| / maxExt * 100)
  let extRatio := min leftExtend rightExtend / maxExt
  let isAsymmetric := decide (extRatio < 0.65) && decide (maxExt > shoulderWidth * 0.6)
  let cLo ← andE (isVisibleE lI) (isVisibleE lT)
  let leftOpenness := if cLo then clamp (dist2d (pt lI) (pt lT) * 1000) else 50
  let cRo ← andE (isVisibleE rI) (isVisibleE rT)
  let rightOpenness := if cRo then clamp (dist2d (pt rI) (pt rT) * 1000) else 50
  let handOpenness := (leftOpenness + rightOpenness) / 2
  let postureScore := clamp (shoulderWidth * 350)
  let armSc := (armQuality leftArmAngle + armQuality rightArmAngle) / 2
  let impact0 := armSc * 0.30 + powerZoneScore * 0.25 + (handOpenness / 100) * 20 +
      postureScore * 0.15 + symmetry * 0.05 +
      (if handSpread > 0.9 then 15 else handSpread * 12)
  let impact1 := if fidgeting then impact0 - 25 else impact0
  let impact2 := if isSlouching then impact1 - 35 else impact1
  let impact := clamp impact2
  let vLWu ← isVisibleE lW
  let leftArmUp := vLWu && decide ((pt lW).y < (pt lS).y)
  let vRWu ← isVisibleE rW
  let rightArmUp := vRWu && decide ((pt rW).y < (pt rS).y)
  let leftStraight := decide (leftArmAngle > 120)
  let rightStraight := decide (rightArmAngle > 120)
  let cHc ← andE (isVisibleE lW) (isVisibleE rW)
  let handsClose := cHc && decide (dist2d (pt lW) (pt rW) < 0.16)
  let cHac ← andE (isVisibleE lW) (isVisibleE rW)
  let handsAtChest := cHac && decide ((pt lW).y > (pt lS).y) &&
      decide ((pt lW).y < (pt lH).y) && decide ((pt rW).y > (pt rS).y) &&
      decide ((pt rW).y < (pt rH).y)
  let g := classifyGesture leftArmUp rightArmUp handSpread leftStraight rightStraight
      handsClose handsAtChest isAsymmetric impact postureScore handsAboveWaist
  let isPowerMoveV := decide (g = .POWER_POSE) || decide (g = .OPEN_GESTURE)
  return {
    gesture := g
    impact := round impact
    armAngleLeft := round leftArmAngle
    armAngleRight := round rightArmAngle
    shoulderWidth := shoulderWidth
    handsAboveWaist := handsAboveWaist
    symmetry := round symmetry
    fidgeting := fidgeting
    isPowerMove := isPowerMoveV
    isSlouching := isSlouching
    noseAboveShoulder := (round (noseAboveShoulder * 100) : ℝ) / 100
    shoulderToEyeRatio := (round (shoulderToEyeRatio * 10) : ℝ) / 10 }

/-- `CoachTip` (src/lib/gestureAnalysis.ts). -/
structure CoachTip where
  id : String
  text : String
  icon : String
  priority : ℕ
deriving DecidableEq, Repr

/-- `ALL_TIPS` (src/lib/gestureAnalysis.ts lines 270-287). -/
def ALL_TIPS : List CoachTip := [
  ⟨"open-palms", "Palms open — builds trust with your audience!", "👐", 1⟩,
  ⟨"raise-hands", "Raise hands to chest level on key points", "🙌", 2⟩,
  ⟨"extend-arms", "Extend arms wider — project more authority", "💪", 3⟩,
  ⟨"chest-open", "Keep shoulders back and chest open", "🏆", 4⟩,
  ⟨"no-face-touch", "Avoid touching your face — it signals doubt", "🚫", 1⟩,
  ⟨"mirror-arms", "Mirror your arms for powerful emphasis", "🔄", 5⟩,
  ⟨"slow-gestures", "Slow your gestures — deliberate > frantic", "🎯", 6⟩,
  ⟨"above-waist", "Keep gestures above the waist to stay visible", "⬆️", 2⟩,
  ⟨"steeple", "Try the \"steeple\" — fingertips touching = confidence", "🤝", 7⟩,
  ⟨"room-size", "Scale gestures to your audience size — go bigger!", "📢", 8⟩,
  ⟨"stillness", "Pause with stillness for dramatic effect", "⏸️", 9⟩,
  ⟨"symmetry", "Balance both sides — asymmetry looks uncertain", "⚖️", 3⟩,
  ⟨"power-pose", "Arms up + wide — the ultimate power move!", "⚡", 1⟩,
  ⟨"open-chest", "Open chest toward camera for maximum presence", "🌟", 4⟩,
  ⟨"slouching", "Sit up straight — upright posture commands respect!", "🪑", 1⟩,
  ⟨"smile", "Smile! Warmth and confidence go hand in hand.", "😊", 3⟩]

/-- The catalog lookup `ALL_TIPS.find((t) => t.id === id)!` used by the rule
pushes of `selectCoachTips`; every id looked up exists in the catalog. -/
def tipById (id : String) : CoachTip :=
  (ALL_TIPS.find? (fun t => t.id == id)).getD ⟨"", "", "", 0⟩

/-- The rule-driven pushes of `selectCoachTips` after the slouch rule
(src/lib/gestureAnalysis.ts lines 294-308), in source order. -/
def candidateTipsRest (result : GestureResult) (elapsed : ℚ) (isSmiling : Bool) :
    List CoachTip :=
  ((if result.fidgeting then [tipById "no-face-touch"] else []) ++
  ((if !result.handsAboveWaist then [tipById "above-waist"] else []) ++
  ((if decide (result.symmetry < 60) then [tipById "symmetry"] else []) ++
  ((if decide (result.armAngleLeft < 100) && decide (result.armAngleRight < 100) then
      [tipById "extend-arms"] else []) ++
  ((if decide (result.gesture = .REST) && decide (elapsed > 5) then
      [tipById "raise-hands"] else []) ++
  ((if decide (result.gesture = .POWER_POSE) then [tipById "power-pose"] else []) ++
  ((if decide (result.impact > 75) then [tipById "open-chest"] else []) ++
  ((if decide (result.gesture = .STEEPLE) then [tipById "steeple"] else []) ++
  ((if !isSmiling && decide (elapsed > 8) then [tipById "smile"] else []) ++ [])))))))))

/-- The rule-driven pushes of `selectCoachTips` (src/lib/gestureAnalysis.ts
lines 290-308): sequential `tips.push` calls under the rule conditions, in
source order, modeled as concatenated conditional singletons. -/
def candidateTips (result : GestureResult) (elapsed : ℚ) (isSmiling : Bool) : List CoachTip :=
  (if result.isSlouching then [tipById "slouching"] else []) ++
    candidateTipsRest result elapsed isSmiling

/-- One iteration of the `while (tips.length < 2)` padding loop of
`selectCoachTips` (lines 311-315): try the catalog entry at index
`tips.length`, and on an id collision push the entry at index
`tips.length + 1` instead. -/
def padStep (tips : List CoachTip) : List CoachTip :=
  let fallback := ALL_TIPS.getD (tips.length % ALL_TIPS.length) ⟨"", "", "", 0⟩
  if (tips.find? (fun t => t.id == fallback.id)).isNone then tips ++ [fallback]
  else tips ++ [ALL_TIPS.getD ((tips.length + 1) % ALL_TIPS.length) ⟨"", "", "", 0⟩]

/-- The padding loop itself.  Every iteration appends exactly one tip (both
branches push), so the loop body runs at most twice; it is unrolled
accordingly. -/
def padTips (tips : List CoachTip) : List CoachTip :=
  let tips1 := if tips.length < 2 then padStep tips else tips
  if tips1.length < 2 then padStep tips1 else tips1

/-- The sort order of the comparator `(a, b) => a.priority - b.priority`:
ascending catalog priority. -/
def tipLE (a b : CoachTip) : Prop := a.priority ≤ b.priority

instance : DecidableRel tipLE := fun _ _ => Nat.decLe _ _

instance : IsTotal CoachTip tipLE := ⟨fun _ _ => Nat.le_total _ _⟩

instance : IsTrans CoachTip tipLE := ⟨fun _ _ _ => Nat.le_trans⟩

/-- `selectCoachTips` (src/lib/gestureAnalysis.ts lines 289-322).  JS
`Array.prototype.sort` is stable, and `List.insertionSort` is stable for
`tipLE`, so it models the sort exactly; the `.filter(Boolean)` of the source
only drops `undefined` entries and every pushed entry is a concrete catalog
tip, so it is the identity here. -/
def selectCoachTips (result : GestureResult) (elapsed : ℚ) (isSmiling : Bool := true) :
    List CoachTip :=
  ((padTips (candidateTips result elapsed isSmiling)).insertionSort tipLE).take 2

/-!
## Session tracker

Embedding of the `useSession` hook of `src/unnamed/part_002` (the revision the
spec describes: confetti cooldown, streak threshold 68, tip hold).  Wall-clock
times (`Date.now()`) are integer milliseconds; the fractional good-posture
accumulator is a rational.  `Math.floor` on a quotient is `Int.floor` of the
exact rational quotient, `Math.round` is `round`.
-/

/-- `MIN_TIP_HOLD_MS` (src/unnamed/part_002 line 96). -/
def MIN_TIP_HOLD_MS : ℤ := 8000

/-- `CONFETTI_COOLDOWN_MS` (src/unnamed/part_002 line 86). -/
def CONFETTI_COOLDOWN_MS : ℤ := 30000

/-- The fields of a `SessionState` snapshot that `processPose` overwrites on
every throttle tick (src/unnamed/part_002 lines 221-239).  The `isActive` and
`elapsed` fields of the source state are merged in unchanged from the previous
state there (`elapsed` is owned by the independent 1 Hz timer), so they are not
part of the per-tick snapshot.  `torsoLeanZ` is copied from a field that the
imported `GestureResult` does not define, hence it is always `undefined`
(`none`). -/
structure SessionState where
  impact : ℤ
  averageImpact : ℤ
  peakImpact : ℤ
  gesture : GestureType
  gestures : ℕ
  streak : ℤ
  bestStreak : ℤ
  tips : List CoachTip
  confetti : Bool
  isSlouching : Bool
  noseAboveShoulder : ℝ
  shoulderToEyeRatio : ℝ
  torsoLeanZ : Option ℝ
  smileCount : ℕ
  slouchCount : ℕ
  goodPostureSeconds : ℤ

/-- The mutable refs of `useSession` (src/unnamed/part_002 lines 59-98).
`lastTickRef` is written on start and never read, so it is omitted. -/
structure SessionRefs where
  active : Bool
  startTime : ℤ
  impactBuffer : List ℤ
  impactSampleTimer : ℤ
  lastGesture : GestureType
  gestureCount : ℕ
  highImpactStart : ℤ
  currentStreak : ℤ
  bestStreak : ℤ
  impactHistory : List ℤ
  peakImpact : ℤ
  confettiLastFired : ℤ
  smileCount : ℕ
  slouchCount : ℕ
  goodPostureSeconds : ℚ
  lastSmiling : Bool
  lastSlouching : Bool
  lastTipUpdate : ℤ
  shownTips : List CoachTip

/-- The initial values of the refs (the `useRef(...)` initializers,
src/unnamed/part_002 lines 59-98). -/
def initialRefs : SessionRefs where
  active := false
  startTime := 0
  impactBuffer := []
  impactSampleTimer := 0
  lastGesture := .REST
  gestureCount := 0
  highImpactStart := 0
  currentStreak := 0
  bestStreak := 0
  impactHistory := []
  peakImpact := 0
  confettiLastFired := 0
  smileCount := 0
  slouchCount := 0
  goodPostureSeconds := 0
  lastSmiling := false
  lastSlouching := false
  lastTipUpdate := 0
  shownTips := []

/-- `start` (src/unnamed/part_002 lines 100-128): resets the session refs.
`impactSampleTimerRef` and `lastGestureRef` are not reset by the source and
keep their previous values. -/
def startSession (s : SessionRefs) (now : ℤ) : SessionRefs :=
  { s with
    active := true
    startTime := now
    impactBuffer := []
    impactHistory := []
    gestureCount := 0
    currentStreak := 0
    bestStreak := 0
    peakImpact := 0
    highImpactStart := 0
    confettiLastFired := 0
    smileCount := 0
    slouchCount := 0
    goodPostureSeconds := 0
    lastSmiling := false
    lastSlouching := false
    lastTipUpdate := 0
    shownTips := [] }

/-- The per-frame part of `processPose` (src/unnamed/part_002 lines 144-152):
edge-triggered smile/slouch counters and the impact-buffer push, which happen
on every processed frame whether or not the 300 ms throttle fires. -/
def frameUpdate (s : SessionRefs) (result : GestureResult) (isSmiling : Bool) : SessionRefs :=
  { s with
    smileCount := if isSmiling && !s.lastSmiling then s.smileCount + 1 else s.smileCount
    lastSmiling := isSmiling
    slouchCount :=
      if result.isSlouching && !s.lastSlouching then s.slouchCount + 1 else s.slouchCount
    lastSlouching := result.isSlouching
    impactBuffer := s.impactBuffer ++ [result.impact] }

/-- `buf = impactBufferRef.current.slice(-12)` (src/unnamed/part_002 line 155):
the most recent 12 samples, or all of them when fewer are buffered. -/
def lastTwelve (buffer : List ℤ) : List ℤ := buffer.drop (buffer.length - 12)

/-- The smoothed impact of a throttle tick (src/unnamed/part_002 line 156):
the mean of the last 12 buffered samples. -/
def smoothedImpact (buffer : List ℤ) : ℚ :=
  ((lastTwelve buffer).sum : ℚ) / ((lastTwelve buffer).length : ℚ)

/-- The throttled part of `processPose` (src/unnamed/part_002 lines 153-239),
applied to the refs after the per-frame update; returns the updated refs and
the emitted `SessionState` snapshot. -/
def tickUpdate (s : SessionRefs) (now : ℤ) (result : GestureResult) (isSmiling : Bool) :
    SessionRefs × SessionState :=
  let roundedImpact : ℤ := round (smoothedImpact s.impactBuffer)
  let impactHistory := s.impactHistory ++ [roundedImpact]
  let avgImpact : ℤ := round ((impactHistory.sum : ℚ) / (impactHistory.length : ℚ))
  let peakImpact := max s.peakImpact roundedImpact
  let gestureCount :=
    if result.isPowerMove && decide (s.lastGesture ≠ result.gesture) &&
        decide (result.impact > 45) then
      s.gestureCount + 1
    else s.gestureCount
  -- streak (lines 176-190): highImpactStart, currentStreak, bestStreak
  let streakSt : ℤ × ℤ × ℤ :=
    if 68 ≤ roundedImpact then
      if s.highImpactStart = 0 then (now, s.currentStreak, s.bestStreak)
      else if 3000 ≤ now - s.highImpactStart then
        let cs : ℤ := ⌊((now - s.highImpactStart : ℤ) : ℚ) / 1000⌋
        (s.highImpactStart, cs, max s.bestStreak cs)
      else (s.highImpactStart, s.currentStreak, s.bestStreak)
    else (0, 0, s.bestStreak)
  let goodPostureSeconds :=
    if decide (45 ≤ roundedImpact) && !result.isSlouching then s.goodPostureSeconds + 3 / 10
    else s.goodPostureSeconds
  let elapsed : ℚ := ((now - s.startTime : ℤ) : ℚ) / 1000
  let shouldConfetti :=
    decide (85 ≤ roundedImpact) && decide (8 ≤ elapsed) &&
      decide (CONFETTI_COOLDOWN_MS ≤ now - s.confettiLastFired)
  let confettiLastFired := if shouldConfetti then now else s.confettiLastFired
  let candidateTipsV := selectCoachTips result elapsed isSmiling
  -- lines 209-214: note the source compares against the id "slouch", which no
  -- catalog tip carries (the slouch tip id is "slouching")
  let slouchFlipped :=
    (candidateTipsV.any fun t => t.id == "slouch") !=
      (s.shownTips.any fun t => t.id == "slouch")
  let tipIdsMatch :=
    String.intercalate "," (candidateTipsV.map CoachTip.id) ==
      String.intercalate "," (s.shownTips.map CoachTip.id)
  let tipsSt : List CoachTip × ℤ :=
    if slouchFlipped || (!tipIdsMatch && decide (MIN_TIP_HOLD_MS ≤ now - s.lastTipUpdate)) then
      (candidateTipsV, now)
    else (s.shownTips, s.lastTipUpdate)
  let refs : SessionRefs :=
    { s with
      impactSampleTimer := now
      impactHistory := impactHistory
      peakImpact := peakImpact
      gestureCount := gestureCount
      lastGesture := result.gesture
      highImpactStart := streakSt.1
      currentStreak := streakSt.2.1
      bestStreak := streakSt.2.2
      goodPostureSeconds := goodPostureSeconds
      confettiLastFired := confettiLastFired
      shownTips := tipsSt.1
      lastTipUpdate := tipsSt.2 }
  let snap : SessionState :=
    { impact := roundedImpact
      averageImpact := avgImpact
      peakImpact := peakImpact
      gesture := result.gesture
      gestures := gestureCount
      streak := streakSt.2.1
      bestStreak := streakSt.2.2
      tips := tipsSt.1
      confetti := shouldConfetti
      isSlouching := result.isSlouching
      noseAboveShoulder := result.noseAboveShoulder
      shoulderToEyeRatio := result.shoulderToEyeRatio
      torsoLeanZ := none
      smileCount := s.smileCount
      slouchCount := s.slouchCount
      goodPostureSeconds := round goodPostureSeconds }
  (refs, snap)

/-- The body of `processPose` after the activity guard (src/unnamed/part_002
lines 140-240), taking the analysis result of the frame as input: the
per-frame update always runs, and the throttled block runs when at least
300 ms have passed since the last sample tick. -/
def processPoseCore (s : SessionRefs) (now : ℤ) (result : GestureResult) (isSmiling : Bool) :
    SessionRefs × Option SessionState :=
  let s1 := frameUpdate s result isSmiling
  if 300 ≤ now - s.impactSampleTimer then
    let r := tickUpdate s1 now result isSmiling
    (r.1, some r.2)
  else (s1, none)

/-- `processPose` (src/unnamed/part_002 lines 136-243): no-ops when inactive or
on an empty landmark collection, otherwise analyzes the frame and feeds the
result to the tracker. -/
noncomputable def processPose (s : SessionRefs) (now : ℤ) (landmarks : List Point)
    (isSmiling : Bool) : SessionRefs × Option SessionState :=
  if !s.active || landmarks.isEmpty then (s, none)
  else processPoseCore s now (analyzeGesture landmarks) isSmiling

/-- One processed frame fed to the tracker: its wall-clock time, the analyzer
result and the smile signal. -/
structure FrameInput where
  now : ℤ
  result : GestureResult
  isSmiling : Bool

/-- A run of `processPose` calls within one active session: threads the refs
through `processPoseCore` and collects the emitted snapshots, each paired with
the wall-clock time of its tick. -/
def runSession (s : SessionRefs) (inputs : List FrameInput) :
    SessionRefs × List (ℤ × SessionState) :=
  match inputs with
  | [] => (s, [])
  | f :: rest =>
    let r := processPoseCore s f.now f.result f.isSmiling
    let rec' := runSession r.1 rest
    (rec'.1, (match r.2 with | some snap => [(f.now, snap)] | none => []) ++ rec'.2)

/-!
## Basic bound lemmas
-/

lemma clamp_mem (v : ℝ) : 0 ≤ clamp v ∧ clamp v ≤ 100 := by
  unfold clamp
  exact ⟨le_max_left _ _, max_le (by norm_num) (min_le_left _ _)⟩

lemma round_mem_of_mem {x : ℝ} (h0 : 0 ≤ x) (h1 : x ≤ 100) :
    0 ≤ round x ∧ round x ≤ 100 := by
  rw [round_eq]
  constructor
  · exact Int.le_floor.2 (by push_cast; linarith)
  · have h : ⌊x + 1 / 2⌋ < 101 := Int.floor_lt.2 (by push_cast; linarith)
    omega

/-- C1: for every landmark collection containing the indexed body points, the
`analyzeGesture` result has `impact` and `symmetry` in `[0, 100]`: both fields
pass through `clamp` before rounding, whatever the geometry of the input. -/
theorem analyzeGesture_impact_symmetry_bounds (lms : List Point) (_h : 25 ≤ lms.length) :
    0 ≤ (analyzeGesture lms).impact ∧ (analyzeGesture lms).impact ≤ 100 ∧
    0 ≤ (analyzeGesture lms).symmetry ∧ (analyzeGesture lms).symmetry ≤ 100 := by
  have h1 := clamp_mem (impactRaw lms)
  have h2 := clamp_mem (100 - |leftExtend lms - rightExtend lms| / maxExt lms * 100)
  have hi := round_mem_of_mem h1.1 h1.2
  have hs := round_mem_of_mem h2.1 h2.2
  simp only [analyzeGesture, impactFinal, symmetry]
  exact ⟨hi.1, hi.2, hs.1, hs.2⟩

/-- A full-body landmark collection used to instantiate universally quantified
results: 25 coincident points, covering every index the analyzer reads. -/
def witnessLandmarks : List Point := List.replicate 25 ⟨0.5, 0.5, none, none⟩

/-- Witness for C1 at a concrete 25-point collection. -/
theorem analyzeGesture_impact_symmetry_bounds_witness :
    0 ≤ (analyzeGesture witnessLandmarks).impact ∧
    (analyzeGesture witnessLandmarks).impact ≤ 100 ∧
    0 ≤ (analyzeGesture witnessLandmarks).symmetry ∧
    (analyzeGesture witnessLandmarks).symmetry ≤ 100 :=
  analyzeGesture_impact_symmetry_bounds witnessLandmarks (by decide)

/-- The impact composition exactly as the specification words it (claim C2):
`0.30·armQuality + 0.25·powerZone + 0.20·handOpenness + 0.15·posture +
0.05·symmetry`, plus a hand-spread bonus of `12·spread` capped at a flat `15`
once the spread exceeds `0.9`, minus `25` when fidgeting and `35` when
slouching. -/
noncomputable def impactC2Spec (lms : List Point) : ℝ :=
  0.30 * armScore lms + 0.25 * powerZoneScore lms + 0.20 * handOpenness lms +
      0.15 * postureScore lms + 0.05 * symmetry lms +
      (if handSpread lms > 0.9 then 15 else handSpread lms * 12) -
    (if fidgeting lms then 25 else 0) -
    (if isSlouching lms then 35 else 0)

/-- C2: the pre-clamp impact computed by `analyzeGesture` equals the
specification's weighted-sum formula with the capped hand-spread bonus and the
fidgeting/slouching penalties, and the reported impact field is that value
clamped to `[0, 100]` (then rounded to the integer the result carries). -/
theorem analyzeGesture_impact_formula (lms : List Point) :
    impactRaw lms = impactC2Spec lms ∧
    impactFinal lms = clamp (impactC2Spec lms) ∧
    (analyzeGesture lms).impact = round (clamp (impactC2Spec lms)) := by
  have h : impactRaw lms = impactC2Spec lms := by
    unfold impactRaw impactC2Spec
    ring
  refine ⟨h, ?_, ?_⟩
  · rw [impactFinal, h]
  · simp only [analyzeGesture, impactFinal, h]

/-!
## The classification cascade (C3)

The branch conditions of the `if` cascade at src/lib/gestureAnalysis.ts lines
236-248, as propositions over the feature values.
-/

def powerPoseCond (lau rau : Bool) (hs : ℝ) : Prop := lau = true ∧ rau = true ∧ hs > 1.1

def openGestureCond (hs : ℝ) (ls rs : Bool) : Prop := hs > 0.9 ∨ (ls = true ∧ rs = true)

def steepleCond (hc hac : Bool) : Prop := hc = true ∧ hac = true

def pointingCond (ia : Bool) : Prop := ia = true

def emphasisCond (imp : ℝ) : Prop := imp > 45

def wideStanceCond (ps : ℝ) (haw : Bool) : Prop := ps > 60 ∧ haw = false

/-- C3: gesture classification is a first-match-wins ordered cascade.  The
gesture reported by `analyzeGesture` is `classifyGesture` applied to the frame
features, and each label is produced exactly when its own rule fires and every
earlier rule's condition is false (with `REST` when all six fail). -/
theorem gesture_cascade_first_match :
    (∀ lms : List Point, (analyzeGesture lms).gesture =
      classifyGesture (leftArmUp lms) (rightArmUp lms) (handSpread lms) (leftStraight lms)
        (rightStraight lms) (handsClose lms) (handsAtChest lms) (isAsymmetric lms)
        (impactFinal lms) (postureScore lms) (handsAboveWaist lms)) ∧
    ∀ (lau rau ls rs hc hac ia haw : Bool) (hs imp ps : ℝ),
      (classifyGesture lau rau hs ls rs hc hac ia imp ps haw = .POWER_POSE ↔
        powerPoseCond lau rau hs) ∧
      (classifyGesture lau rau hs ls rs hc hac ia imp ps haw = .OPEN_GESTURE ↔
        (¬powerPoseCond lau rau hs ∧ openGestureCond hs ls rs)) ∧
      (classifyGesture lau rau hs ls rs hc hac ia imp ps haw = .STEEPLE ↔
        (¬powerPoseCond lau rau hs ∧ ¬openGestureCond hs ls rs ∧ steepleCond hc hac)) ∧
      (classifyGesture lau rau hs ls rs hc hac ia imp ps haw = .POINTING ↔
        (¬powerPoseCond lau rau hs ∧ ¬openGestureCond hs ls rs ∧ ¬steepleCond hc hac ∧
          pointingCond ia)) ∧
      (classifyGesture lau rau hs ls rs hc hac ia imp ps haw = .EMPHASIS ↔
        (¬powerPoseCond lau rau hs ∧ ¬openGestureCond hs ls rs ∧ ¬steepleCond hc hac ∧
          ¬pointingCond ia ∧ emphasisCond imp)) ∧
      (classifyGesture lau rau hs ls rs hc hac ia imp ps haw = .WIDE_STANCE ↔
        (¬powerPoseCond lau rau hs ∧ ¬openGestureCond hs ls rs ∧ ¬steepleCond hc hac ∧
          ¬pointingCond ia ∧ ¬emphasisCond imp ∧ wideStanceCond ps haw)) ∧
      (classifyGesture lau rau hs ls rs hc hac ia imp ps haw = .REST ↔
        (¬powerPoseCond lau rau hs ∧ ¬openGestureCond hs ls rs ∧ ¬steepleCond hc hac ∧
          ¬pointingCond ia ∧ ¬emphasisCond imp ∧ ¬wideStanceCond ps haw)) := by
  constructor
  · intro lms
    rfl
  · intro lau rau ls rs hc hac ia haw hs imp ps
    unfold classifyGesture powerPoseCond openGestureCond steepleCond pointingCond
      emphasisCond wideStanceCond
    split_ifs with h1 h2 h3 h4 h5 h6 <;>
      simp_all only [Bool.and_eq_true, Bool.or_eq_true, Bool.not_eq_true',
        decide_eq_true_eq, Bool.not_eq_true, Bool.not_eq_eq_eq_not, Bool.not_true] <;>
      simp_all

lemma round_rat_mono {a b : ℚ} (h : a ≤ b) : round a ≤ round b := by
  rw [round_eq, round_eq]
  exact Int.floor_mono (by linarith)

/-- C4 (code bug): on a landmark collection smaller than the indexed body
topology the analyzer does not substitute "not visible" defaults — its very
first visibility read (`isVisible(lS)` for the left shoulder, index 11)
dereferences an `undefined` array entry and throws a TypeError.  Here the
collection holds a single fully-visible point. -/
theorem analyzeGesture_throws_on_short_input :
    analyzeGestureE [⟨0.5, 0.5, none, none⟩] =
      .error "TypeError: cannot read visibility of undefined" := rfl

/-!
## Tip-list structure helpers
-/

/-- The ten tips the rule cascade of `selectCoachTips` can push, in push
order. -/
def ruleTips : List CoachTip :=
  [tipById "slouching", tipById "no-face-touch", tipById "above-waist", tipById "symmetry",
   tipById "extend-arms", tipById "raise-hands", tipById "power-pose", tipById "open-chest",
   tipById "steeple", tipById "smile"]

lemma condSingleton_append_sublist {α : Type} {c : Bool} {a : α} {l1 l2 : List α}
    (h : List.Sublist l1 l2) :
    List.Sublist ((if c then [a] else []) ++ l1) (a :: l2) := by
  cases c
  · simpa using h.cons a
  · simpa using h.cons₂ a

lemma candidateTips_sublist (r : GestureResult) (e : ℚ) (sm : Bool) :
    List.Sublist (candidateTips r e sm) ruleTips := by
  unfold candidateTips candidateTipsRest ruleTips
  apply condSingleton_append_sublist
  apply condSingleton_append_sublist
  apply condSingleton_append_sublist
  apply condSingleton_append_sublist
  apply condSingleton_append_sublist
  apply condSingleton_append_sublist
  apply condSingleton_append_sublist
  apply condSingleton_append_sublist
  apply condSingleton_append_sublist
  apply condSingleton_append_sublist
  exact List.Sublist.refl []

lemma ruleTips_subset : ∀ t ∈ ruleTips, t ∈ ALL_TIPS := by decide

lemma ruleTips_nodup : ruleTips.Nodup := by decide

lemma candidateTips_mem {r : GestureResult} {e : ℚ} {sm : Bool} {t : CoachTip}
    (h : t ∈ candidateTips r e sm) : t ∈ ALL_TIPS :=
  ruleTips_subset t ((candidateTips_sublist r e sm).subset h)

lemma allTips_getD_mem (i : ℕ) (d : CoachTip) (h : i < ALL_TIPS.length) :
    ALL_TIPS.getD i d ∈ ALL_TIPS := by
  rw [List.getD_eq_getElem?_getD, List.getElem?_eq_getElem h, Option.getD_some]
  exact List.getElem_mem h

/-- `padStep` appends exactly one catalog tip to the list. -/
lemma padStep_eq (l : List CoachTip) : ∃ x, padStep l = l ++ [x] ∧ x ∈ ALL_TIPS := by
  have hlen : ALL_TIPS.length = 16 := rfl
  simp only [padStep]
  split_ifs
  · exact ⟨_, rfl, allTips_getD_mem _ _ (by rw [hlen]; exact Nat.mod_lt _ (by norm_num))⟩
  · exact ⟨_, rfl, allTips_getD_mem _ _ (by rw [hlen]; exact Nat.mod_lt _ (by norm_num))⟩

/-- `padTips` only appends catalog tips after the given list. -/
lemma padTips_eq (l : List CoachTip) :
    ∃ suffix, padTips l = l ++ suffix ∧ ∀ t ∈ suffix, t ∈ ALL_TIPS := by
  by_cases h1 : l.length < 2
  · obtain ⟨x, hx, hxm⟩ := padStep_eq l
    by_cases h2 : (padStep l).length < 2
    · obtain ⟨y, hy, hym⟩ := padStep_eq (padStep l)
      rw [hx] at h2 hy
      refine ⟨[x, y], ?_, ?_⟩
      · simp only [padTips, if_pos h1, hx, if_pos h2, hy, List.append_assoc]
        rfl
      · intro t ht
        rcases List.mem_cons.1 ht with h | h
        · rw [h]; exact hxm
        · rw [List.mem_singleton.1 h]; exact hym
    · rw [hx] at h2
      refine ⟨[x], ?_, ?_⟩
      · simp only [padTips, if_pos h1, hx, if_neg h2]
      · intro t ht
        rw [List.mem_singleton.1 ht]
        exact hxm
  · exact ⟨[], by simp [padTips, if_neg h1], by simp⟩

lemma padTips_mem {l : List CoachTip} {t : CoachTip} (h : t ∈ padTips l) :
    t ∈ l ∨ t ∈ ALL_TIPS := by
  obtain ⟨suffix, hs, hm⟩ := padTips_eq l
  rw [hs] at h
  rcases List.mem_append.1 h with h' | h'
  · exact Or.inl h'
  · exact Or.inr (hm t h')

lemma selectCoachTips_mem {r : GestureResult} {e : ℚ} {sm : Bool} {t : CoachTip}
    (h : t ∈ selectCoachTips r e sm) : t ∈ ALL_TIPS := by
  unfold selectCoachTips at h
  have h1 : t ∈ (padTips (candidateTips r e sm)).insertionSort tipLE :=
    List.mem_of_mem_take h
  have h2 : t ∈ padTips (candidateTips r e sm) :=
    (List.perm_insertionSort tipLE _).subset h1
  rcases padTips_mem h2 with h3 | h3
  · exact candidateTips_mem h3
  · exact h3

lemma allTips_no_slouch_id : ∀ t ∈ ALL_TIPS, (t.id == "slouch") = false := by decide

/-- No list drawn from the catalog — in particular no selector output — ever
contains a tip with id `"slouch"`. -/
lemma selectCoachTips_any_slouch (r : GestureResult) (e : ℚ) (sm : Bool) :
    ((selectCoachTips r e sm).any fun t => t.id == "slouch") = false := by
  rw [List.any_eq_false]
  intro t ht
  simp only [Bool.not_eq_true]
  exact allTips_no_slouch_id t (selectCoachTips_mem ht)

/-- C5 (code bug): the "immediate swap when the slouch tip flips" can never
happen.  Whenever the displayed set carries no tip with id `"slouch"` (true of
every set the selector can produce, since the slouch tip's catalog id is
`"slouching"`) and the 8 s hold has not elapsed, a throttle tick leaves the
displayed tips unchanged — even if the slouch tip just entered or left the
candidate set. -/
theorem slouch_tip_swap_never_fires (s : SessionRefs) (now : ℤ) (result : GestureResult)
    (isSmiling : Bool) (hshown : (s.shownTips.any fun t => t.id == "slouch") = false)
    (hhold : now - s.lastTipUpdate < MIN_TIP_HOLD_MS) :
    (tickUpdate s now result isSmiling).1.shownTips = s.shownTips ∧
    (tickUpdate s now result isSmiling).1.lastTipUpdate = s.lastTipUpdate := by
  have hdec : decide (MIN_TIP_HOLD_MS ≤ now - s.lastTipUpdate) = false :=
    decide_eq_false (not_le.2 hhold)
  simp [tickUpdate, selectCoachTips_any_slouch, hshown, hdec]

/-- The session refs for the C5 failing input: an active session whose shown
tip pair was displayed 5.3 s before the next tick (so the hold window is still
open) and does not contain the slouch tip. -/
def tipBugRefs : SessionRefs :=
  { initialRefs with
    active := true
    startTime := 0
    impactBuffer := [50]
    impactSampleTimer := 299000
    lastTipUpdate := 295000
    shownTips := [tipById "open-palms", tipById "raise-hands"] }

/-- A slouching analysis result for the C5 failing input: its candidate tip set
contains the slouch tip while the shown set does not. -/
def tipBugResult : GestureResult :=
  { gesture := .REST
    impact := 50
    armAngleLeft := 120
    armAngleRight := 120
    shoulderWidth := 0.4
    handsAboveWaist := true
    symmetry := 80
    fidgeting := false
    isPowerMove := false
    isSlouching := true
    noseAboveShoulder := 0.3
    shoulderToEyeRatio := 6 }

/-- Witness for C5: the concrete slouching tick leaves the shown tips
untouched. -/
theorem slouch_tip_swap_never_fires_witness :
    (tickUpdate tipBugRefs 300300 tipBugResult true).1.shownTips = tipBugRefs.shownTips :=
  (slouch_tip_swap_never_fires tipBugRefs 300300 tipBugResult true (by decide) (by decide)).1

/-!
## Session-tracker step lemmas
-/

/-- Splitting a tracker step on the throttle condition. -/
lemma processPoseCore_split (s : SessionRefs) (now : ℤ) (r : GestureResult) (b : Bool) :
    processPoseCore s now r b =
      if 300 ≤ now - s.impactSampleTimer then
        ((tickUpdate (frameUpdate s r b) now r b).1,
         some (tickUpdate (frameUpdate s r b) now r b).2)
      else (frameUpdate s r b, none) := by
  unfold processPoseCore
  split_ifs <;> rfl

/-- The per-frame counter updates are the same whether or not the throttle
fires, since the throttled block never touches them. -/
lemma processPoseCore_frame_fields (s : SessionRefs) (now : ℤ) (r : GestureResult) (b : Bool) :
    (processPoseCore s now r b).1.slouchCount =
      (if r.isSlouching && !s.lastSlouching then s.slouchCount + 1 else s.slouchCount) ∧
    (processPoseCore s now r b).1.lastSlouching = r.isSlouching ∧
    (processPoseCore s now r b).1.smileCount =
      (if b && !s.lastSmiling then s.smileCount + 1 else s.smileCount) ∧
    (processPoseCore s now r b).1.lastSmiling = b := by
  by_cases ht : 300 ≤ now - s.impactSampleTimer
  · rw [processPoseCore_split, if_pos ht]
    exact ⟨rfl, rfl, rfl, rfl⟩
  · rw [processPoseCore_split, if_neg ht]
    exact ⟨rfl, rfl, rfl, rfl⟩

lemma runSession_nil (s : SessionRefs) : runSession s [] = (s, []) := rfl

lemma runSession_cons (s : SessionRefs) (f : FrameInput) (rest : List FrameInput) :
    runSession s (f :: rest) =
      ((runSession (processPoseCore s f.now f.result f.isSmiling).1 rest).1,
       (match (processPoseCore s f.now f.result f.isSmiling).2 with
        | some snap => [(f.now, snap)]
        | none => []) ++
         (runSession (processPoseCore s f.now f.result f.isSmiling).1 rest).2) := rfl

/-!
## C6: the confetti cooldown
-/

lemma tickUpdate_confetti_iff (s : SessionRefs) (now : ℤ) (r : GestureResult) (b : Bool) :
    (tickUpdate s now r b).2.confetti = true ↔
      (85 ≤ round (smoothedImpact s.impactBuffer) ∧
       8 ≤ ((now - s.startTime : ℤ) : ℚ) / 1000 ∧
       CONFETTI_COOLDOWN_MS ≤ now - s.confettiLastFired) := by
  simp only [tickUpdate, Bool.and_eq_true, decide_eq_true_eq, and_assoc]

lemma tickUpdate_confettiLastFired (s : SessionRefs) (now : ℤ) (r : GestureResult) (b : Bool) :
    (tickUpdate s now r b).1.confettiLastFired =
      (if (tickUpdate s now r b).2.confetti then now else s.confettiLastFired) := rfl

lemma frameUpdate_confettiLastFired (s : SessionRefs) (r : GestureResult) (b : Bool) :
    (frameUpdate s r b).confettiLastFired = s.confettiLastFired := rfl

lemma frameUpdate_startTime (s : SessionRefs) (r : GestureResult) (b : Bool) :
    (frameUpdate s r b).startTime = s.startTime := rfl

lemma mem_of_head? {α : Type} {l : List α} {y : α} (h : y ∈ l.head?) : y ∈ l := by
  cases l with
  | nil => simp at h
  | cons a t =>
    simp only [List.head?_cons, Option.mem_def, Option.some.injEq] at h
    rw [← h]
    exact List.mem_cons_self a t

/-- Invariant run lemma for the confetti cooldown: along any run, the emitted
confetti-true snapshots are pairwise at least a cooldown apart, and the first
of them is at least a cooldown after the incoming `confettiLastFired`. -/
lemma confetti_run_invariant (inputs : List FrameInput) : ∀ s : SessionRefs,
    List.Chain' (fun a b => CONFETTI_COOLDOWN_MS ≤ b.1 - a.1)
      ((runSession s inputs).2.filter fun p => p.2.confetti) ∧
    ∀ p ∈ (runSession s inputs).2.filter fun p => p.2.confetti,
      CONFETTI_COOLDOWN_MS ≤ p.1 - s.confettiLastFired := by
  induction inputs with
  | nil =>
    intro s
    simp [runSession_nil]
  | cons f rest ih =>
    intro s
    rw [runSession_cons]
    by_cases ht : 300 ≤ f.now - s.impactSampleTimer
    · rw [processPoseCore_split, if_pos ht]
      set s1 := frameUpdate s f.result f.isSmiling with hs1
      set s2 := (tickUpdate s1 f.now f.result f.isSmiling).1 with hs2
      set snap := (tickUpdate s1 f.now f.result f.isSmiling).2 with hsnap
      have hrest := ih s2
      by_cases hc : snap.confetti = true
      · -- the tick fired: the new last-fired time is this tick's time
        have hlast : s2.confettiLastFired = f.now := by
          rw [hs2, tickUpdate_confettiLastFired, ← hsnap, hc, if_pos rfl]
        have hbound : CONFETTI_COOLDOWN_MS ≤ f.now - s.confettiLastFired := by
          have hiff := (tickUpdate_confetti_iff s1 f.now f.result f.isSmiling).1 (by
            rw [← hsnap]; exact hc)
          have : (frameUpdate s f.result f.isSmiling).confettiLastFired =
              s.confettiLastFired := frameUpdate_confettiLastFired s f.result f.isSmiling
          rw [hs1] at hiff
          rw [this] at hiff
          exact hiff.2.2
        rw [hlast] at hrest
        simp only [List.filter_append, List.filter_cons, List.filter_nil, hc,
          eq_self_iff_true, if_true, List.singleton_append, List.nil_append]
        constructor
        · rw [List.chain'_cons']
          exact ⟨fun y hy => hrest.2 y (mem_of_head? hy), hrest.1⟩
        · intro p hp
          rcases List.mem_cons.1 hp with rfl | hp'
          · exact hbound
          · have h1 := hrest.2 p hp'
            have h30 : (0 : ℤ) < CONFETTI_COOLDOWN_MS := by norm_num [CONFETTI_COOLDOWN_MS]
            omega
      · -- tick without confetti: the last-fired time is unchanged
        have hc' : snap.confetti = false := by simpa using hc
        have hlast : s2.confettiLastFired = s.confettiLastFired := by
          rw [hs2, tickUpdate_confettiLastFired, ← hsnap, hc', if_neg (by simp), hs1,
            frameUpdate_confettiLastFired]
        rw [hlast] at hrest
        simp only [List.filter_append, List.filter_cons, List.filter_nil, hc',
          Bool.false_eq_true, if_false, List.nil_append]
        exact hrest
    · rw [processPoseCore_split, if_neg ht]
      have hrest := ih (frameUpdate s f.result f.isSmiling)
      rw [frameUpdate_confettiLastFired] at hrest
      simpa using hrest

/-- C6: the confetti flag is set on a throttle tick exactly when the smoothed
impact is at least 85, at least 8 s of session time have elapsed, and at least
the 30 s cooldown has passed since the last trigger; firing records the tick
time as the new cooldown origin, and along any run two confetti-true snapshots
are always at least a full cooldown window apart — while the iff's converse
direction means it fires again whenever the cooldown has elapsed and the other
two conditions hold (a cooldown, not a one-shot). -/
theorem confetti_cooldown_behavior :
    (∀ (s : SessionRefs) (now : ℤ) (r : GestureResult) (b : Bool),
      ((tickUpdate s now r b).2.confetti = true ↔
        (85 ≤ round (smoothedImpact s.impactBuffer) ∧
         8 ≤ ((now - s.startTime : ℤ) : ℚ) / 1000 ∧
         CONFETTI_COOLDOWN_MS ≤ now - s.confettiLastFired)) ∧
      (tickUpdate s now r b).1.confettiLastFired =
        (if (tickUpdate s now r b).2.confetti then now else s.confettiLastFired)) ∧
    ∀ (s : SessionRefs) (inputs : List FrameInput),
      List.Chain' (fun a b => CONFETTI_COOLDOWN_MS ≤ b.1 - a.1)
        ((runSession s inputs).2.filter fun p => p.2.confetti) :=
  ⟨fun s now r b => ⟨tickUpdate_confetti_iff s now r b, tickUpdate_confettiLastFired s now r b⟩,
   fun s inputs => (confetti_run_invariant inputs s).1⟩

/-!
## C7: edge-triggered smile and slouch counters
-/

lemma run_slouch_sustained (inputs : List FrameInput) : ∀ s : SessionRefs,
    s.lastSlouching = true → (∀ f ∈ inputs, f.result.isSlouching = true) →
    (runSession s inputs).1.slouchCount = s.slouchCount ∧
    (runSession s inputs).1.lastSlouching = true := by
  induction inputs with
  | nil => intro s h _; exact ⟨rfl, h⟩
  | cons f rest ih =>
    intro s hlast hall
    rw [runSession_cons]
    have hstep := processPoseCore_frame_fields s f.now f.result f.isSmiling
    set s1 := (processPoseCore s f.now f.result f.isSmiling).1 with hs1
    have hc : s1.slouchCount = s.slouchCount := by
      rw [hstep.1, hlast]
      simp
    have hl : s1.lastSlouching = true := by
      rw [hstep.2.1]
      exact hall f (List.mem_cons_self f rest)
    have := ih s1 hl (fun g hg => hall g (List.mem_cons_of_mem f hg))
    exact ⟨by rw [this.1, hc], this.2⟩

lemma run_smile_sustained (inputs : List FrameInput) : ∀ s : SessionRefs,
    s.lastSmiling = true → (∀ f ∈ inputs, f.isSmiling = true) →
    (runSession s inputs).1.smileCount = s.smileCount ∧
    (runSession s inputs).1.lastSmiling = true := by
  induction inputs with
  | nil => intro s h _; exact ⟨rfl, h⟩
  | cons f rest ih =>
    intro s hlast hall
    rw [runSession_cons]
    have hstep := processPoseCore_frame_fields s f.now f.result f.isSmiling
    set s1 := (processPoseCore s f.now f.result f.isSmiling).1 with hs1
    have hc : s1.smileCount = s.smileCount := by
      rw [hstep.2.2.1, hlast]
      simp
    have hl : s1.lastSmiling = true := by
      rw [hstep.2.2.2]
      exact hall f (List.mem_cons_self f rest)
    have := ih s1 hl (fun g hg => hall g (List.mem_cons_of_mem f hg))
    exact ⟨by rw [this.1, hc], this.2⟩

/-- C7: the smile and slouch counters are edge-triggered.  From a non-raised
flag, a run of frames with the flag continuously true increments the counter
exactly once however long it is, and a false-true-false-true flag pattern
increments it exactly twice. -/
theorem edge_triggered_counters :
    (∀ (s : SessionRefs) (inputs : List FrameInput), s.lastSlouching = false →
      inputs ≠ [] → (∀ f ∈ inputs, f.result.isSlouching = true) →
      (runSession s inputs).1.slouchCount = s.slouchCount + 1) ∧
    (∀ (s : SessionRefs) (inputs : List FrameInput), s.lastSmiling = false →
      inputs ≠ [] → (∀ f ∈ inputs, f.isSmiling = true) →
      (runSession s inputs).1.smileCount = s.smileCount + 1) ∧
    (∀ (s : SessionRefs) (f1 f2 f3 f4 : FrameInput), s.lastSlouching = false →
      f1.result.isSlouching = false → f2.result.isSlouching = true →
      f3.result.isSlouching = false → f4.result.isSlouching = true →
      (runSession s [f1, f2, f3, f4]).1.slouchCount = s.slouchCount + 2) ∧
    (∀ (s : SessionRefs) (f1 f2 f3 f4 : FrameInput), s.lastSmiling = false →
      f1.isSmiling = false → f2.isSmiling = true →
      f3.isSmiling = false → f4.isSmiling = true →
      (runSession s [f1, f2, f3, f4]).1.smileCount = s.smileCount + 2) := by
  refine ⟨?_, ?_, ?_, ?_⟩
  · intro s inputs h0 hne hall
    cases inputs with
    | nil => exact absurd rfl hne
    | cons f rest =>
      rw [runSession_cons]
      have hstep := processPoseCore_frame_fields s f.now f.result f.isSmiling
      set s1 := (processPoseCore s f.now f.result f.isSmiling).1 with hs1
      have hc : s1.slouchCount = s.slouchCount + 1 := by
        rw [hstep.1, hall f (List.mem_cons_self f rest), h0]
        simp
      have hl : s1.lastSlouching = true := by
        rw [hstep.2.1]
        exact hall f (List.mem_cons_self f rest)
      have := run_slouch_sustained rest s1 hl (fun g hg => hall g (List.mem_cons_of_mem f hg))
      rw [this.1, hc]
  · intro s inputs h0 hne hall
    cases inputs with
    | nil => exact absurd rfl hne
    | cons f rest =>
      rw [runSession_cons]
      have hstep := processPoseCore_frame_fields s f.now f.result f.isSmiling
      set s1 := (processPoseCore s f.now f.result f.isSmiling).1 with hs1
      have hc : s1.smileCount = s.smileCount + 1 := by
        rw [hstep.2.2.1, hall f (List.mem_cons_self f rest), h0]
        simp
      have hl : s1.lastSmiling = true := by
        rw [hstep.2.2.2]
        exact hall f (List.mem_cons_self f rest)
      have := run_smile_sustained rest s1 hl (fun g hg => hall g (List.mem_cons_of_mem f hg))
      rw [this.1, hc]
  · intro s f1 f2 f3 f4 h0 h1 h2 h3 h4
    have e1 := processPoseCore_frame_fields s f1.now f1.result f1.isSmiling
    set s1 := (processPoseCore s f1.now f1.result f1.isSmiling).1 with hs1
    have e2 := processPoseCore_frame_fields s1 f2.now f2.result f2.isSmiling
    set s2 := (processPoseCore s1 f2.now f2.result f2.isSmiling).1 with hs2
    have e3 := processPoseCore_frame_fields s2 f3.now f3.result f3.isSmiling
    set s3 := (processPoseCore s2 f3.now f3.result f3.isSmiling).1 with hs3
    have e4 := processPoseCore_frame_fields s3 f4.now f4.result f4.isSmiling
    set s4 := (processPoseCore s3 f4.now f4.result f4.isSmiling).1 with hs4
    have c1 : s1.slouchCount = s.slouchCount := by rw [e1.1, h1]; simp
    have l1 : s1.lastSlouching = false := by rw [e1.2.1, h1]
    have c2 : s2.slouchCount = s.slouchCount + 1 := by rw [e2.1, h2, l1, c1]; simp
    have l2 : s2.lastSlouching = true := by rw [e2.2.1, h2]
    have c3 : s3.slouchCount = s.slouchCount + 1 := by rw [e3.1, h3, c2]; simp
    have l3 : s3.lastSlouching = false := by rw [e3.2.1, h3]
    have c4 : s4.slouchCount = s.slouchCount + 2 := by rw [e4.1, h4, l3, c3]; simp
    show (runSession s [f1, f2, f3, f4]).1.slouchCount = s.slouchCount + 2
    rw [runSession_cons, runSession_cons, runSession_cons, runSession_cons, runSession_nil]
    exact c4
  · intro s f1 f2 f3 f4 h0 h1 h2 h3 h4
    have e1 := processPoseCore_frame_fields s f1.now f1.result f1.isSmiling
    set s1 := (processPoseCore s f1.now f1.result f1.isSmiling).1 with hs1
    have e2 := processPoseCore_frame_fields s1 f2.now f2.result f2.isSmiling
    set s2 := (processPoseCore s1 f2.now f2.result f2.isSmiling).1 with hs2
    have e3 := processPoseCore_frame_fields s2 f3.now f3.result f3.isSmiling
    set s3 := (processPoseCore s2 f3.now f3.result f3.isSmiling).1 with hs3
    have e4 := processPoseCore_frame_fields s3 f4.now f4.result f4.isSmiling
    set s4 := (processPoseCore s3 f4.now f4.result f4.isSmiling).1 with hs4
    have c1 : s1.smileCount = s.smileCount := by rw [e1.2.2.1, h1]; simp
    have l1 : s1.lastSmiling = false := by rw [e1.2.2.2, h1]
    have c2 : s2.smileCount = s.smileCount + 1 := by rw [e2.2.2.1, h2, l1, c1]; simp
    have l2 : s2.lastSmiling = true := by rw [e2.2.2.2, h2]
    have c3 : s3.smileCount = s.smileCount + 1 := by rw [e3.2.2.1, h3, c2]; simp
    have l3 : s3.lastSmiling = false := by rw [e3.2.2.2, h3]
    have c4 : s4.smileCount = s.smileCount + 2 := by rw [e4.2.2.1, h4, l3, c3]; simp
    show (runSession s [f1, f2, f3, f4]).1.smileCount = s.smileCount + 2
    rw [runSession_cons, runSession_cons, runSession_cons, runSession_cons, runSession_nil]
    exact c4

/-- A slouching analysis result used to drive the C7 witness frames. -/
def slouchFrameResult : GestureResult :=
  { gesture := .REST
    impact := 40
    armAngleLeft := 110
    armAngleRight := 110
    shoulderWidth := 0.3
    handsAboveWaist := true
    symmetry := 90
    fidgeting := false
    isPowerMove := false
    isSlouching := true
    noseAboveShoulder := 0.3
    shoulderToEyeRatio := 4 }

/-- A non-slouching analysis result used to drive the C7 witness frames. -/
def calmFrameResult : GestureResult :=
  { gesture := .REST
    impact := 40
    armAngleLeft := 110
    armAngleRight := 110
    shoulderWidth := 0.3
    handsAboveWaist := true
    symmetry := 90
    fidgeting := false
    isPowerMove := false
    isSlouching := false
    noseAboveShoulder := 0.6
    shoulderToEyeRatio := 6 }

/-- Witness for C7: three consecutive slouching frames from a fresh session
bump the slouch counter exactly once, and a false-true-false-true pattern bumps
it exactly twice. -/
theorem edge_triggered_counters_witness :
    (runSession (startSession initialRefs 0)
      [⟨33, slouchFrameResult, true⟩, ⟨66, slouchFrameResult, true⟩,
       ⟨99, slouchFrameResult, true⟩]).1.slouchCount = 1 ∧
    (runSession (startSession initialRefs 0)
      [⟨33, calmFrameResult, true⟩, ⟨66, slouchFrameResult, true⟩,
       ⟨99, calmFrameResult, true⟩, ⟨132, slouchFrameResult, true⟩]).1.slouchCount = 2 := by
  constructor
  · exact edge_triggered_counters.1 (startSession initialRefs 0) _ rfl (by simp)
      (by intro f hf; fin_cases hf <;> rfl)
  · exact edge_triggered_counters.2.2.1 (startSession initialRefs 0)
      ⟨33, calmFrameResult, true⟩ ⟨66, slouchFrameResult, true⟩
      ⟨99, calmFrameResult, true⟩ ⟨132, slouchFrameResult, true⟩ rfl rfl rfl rfl rfl

/-!
## C8: monotone counters, and C10: the streak invariant
-/

lemma frameUpdate_fields (s : SessionRefs) (r : GestureResult) (b : Bool) :
    s.slouchCount ≤ (frameUpdate s r b).slouchCount ∧
    s.smileCount ≤ (frameUpdate s r b).smileCount ∧
    (frameUpdate s r b).gestureCount = s.gestureCount ∧
    (frameUpdate s r b).goodPostureSeconds = s.goodPostureSeconds ∧
    (frameUpdate s r b).peakImpact = s.peakImpact ∧
    (frameUpdate s r b).bestStreak = s.bestStreak ∧
    (frameUpdate s r b).currentStreak = s.currentStreak := by
  refine ⟨?_, ?_, rfl, rfl, rfl, rfl, rfl⟩ <;>
    (simp only [frameUpdate]; split_ifs <;> omega)

lemma tickUpdate_mono (s : SessionRefs) (now : ℤ) (r : GestureResult) (b : Bool) :
    s.gestureCount ≤ (tickUpdate s now r b).1.gestureCount ∧
    s.goodPostureSeconds ≤ (tickUpdate s now r b).1.goodPostureSeconds ∧
    s.peakImpact ≤ (tickUpdate s now r b).1.peakImpact ∧
    s.bestStreak ≤ (tickUpdate s now r b).1.bestStreak ∧
    (tickUpdate s now r b).1.slouchCount = s.slouchCount ∧
    (tickUpdate s now r b).1.smileCount = s.smileCount := by
  refine ⟨?_, ?_, ?_, ?_, rfl, rfl⟩
  · simp only [tickUpdate]
    split_ifs <;> omega
  · simp only [tickUpdate]
    split_ifs
    · linarith [show (0 : ℚ) < 3 / 10 by norm_num]
    · exact le_refl _
  · exact le_max_left _ _
  · simp only [tickUpdate]
    split_ifs
    · exact le_refl _
    · exact le_max_left _ _
    · exact le_refl _
    · exact le_refl _

/-- The emitted snapshot mirrors the updated refs in the aggregate fields. -/
lemma tickUpdate_snap_eq (s : SessionRefs) (now : ℤ) (r : GestureResult) (b : Bool) :
    (tickUpdate s now r b).2.gestures = (tickUpdate s now r b).1.gestureCount ∧
    (tickUpdate s now r b).2.slouchCount = (tickUpdate s now r b).1.slouchCount ∧
    (tickUpdate s now r b).2.smileCount = (tickUpdate s now r b).1.smileCount ∧
    (tickUpdate s now r b).2.goodPostureSeconds =
      round (tickUpdate s now r b).1.goodPostureSeconds ∧
    (tickUpdate s now r b).2.peakImpact = (tickUpdate s now r b).1.peakImpact ∧
    (tickUpdate s now r b).2.bestStreak = (tickUpdate s now r b).1.bestStreak ∧
    (tickUpdate s now r b).2.streak = (tickUpdate s now r b).1.currentStreak :=
  ⟨rfl, rfl, rfl, rfl, rfl, rfl, rfl⟩

lemma processPoseCore_mono (s : SessionRefs) (now : ℤ) (r : GestureResult) (b : Bool) :
    s.gestureCount ≤ (processPoseCore s now r b).1.gestureCount ∧
    s.slouchCount ≤ (processPoseCore s now r b).1.slouchCount ∧
    s.smileCount ≤ (processPoseCore s now r b).1.smileCount ∧
    s.goodPostureSeconds ≤ (processPoseCore s now r b).1.goodPostureSeconds ∧
    s.peakImpact ≤ (processPoseCore s now r b).1.peakImpact ∧
    s.bestStreak ≤ (processPoseCore s now r b).1.bestStreak := by
  rw [processPoseCore_split]
  have hf := frameUpdate_fields s r b
  by_cases ht : 300 ≤ now - s.impactSampleTimer
  · rw [if_pos ht]
    have htk := tickUpdate_mono (frameUpdate s r b) now r b
    refine ⟨?_, ?_, ?_, ?_, ?_, ?_⟩
    · calc s.gestureCount = (frameUpdate s r b).gestureCount := hf.2.2.1.symm
        _ ≤ _ := htk.1
    · calc s.slouchCount ≤ (frameUpdate s r b).slouchCount := hf.1
        _ = _ := htk.2.2.2.2.1.symm
    · calc s.smileCount ≤ (frameUpdate s r b).smileCount := hf.2.1
        _ = _ := htk.2.2.2.2.2.symm
    · calc s.goodPostureSeconds = (frameUpdate s r b).goodPostureSeconds := hf.2.2.2.1.symm
        _ ≤ _ := htk.2.1
    · calc s.peakImpact = (frameUpdate s r b).peakImpact := hf.2.2.2.2.1.symm
        _ ≤ _ := htk.2.2.1
    · calc s.bestStreak = (frameUpdate s r b).bestStreak := hf.2.2.2.2.2.1.symm
        _ ≤ _ := htk.2.2.2.1
  · rw [if_neg ht]
    exact ⟨le_of_eq hf.2.2.1.symm, hf.1, hf.2.1, le_of_eq hf.2.2.2.1.symm,
      le_of_eq hf.2.2.2.2.1.symm, le_of_eq hf.2.2.2.2.2.1.symm⟩

/-- Preservation of the streak invariant by a throttle tick. -/
lemma tickUpdate_streak (s : SessionRefs) (now : ℤ) (r : GestureResult) (b : Bool)
    (h : s.currentStreak = 0 ∨ 3 ≤ s.currentStreak) :
    (tickUpdate s now r b).1.currentStreak = 0 ∨
      3 ≤ (tickUpdate s now r b).1.currentStreak := by
  simp only [tickUpdate]
  split_ifs with h1 h2 h3
  · exact h
  · right
    show (3 : ℤ) ≤ ⌊((now - s.highImpactStart : ℤ) : ℚ) / 1000⌋
    rw [Int.le_floor]
    rw [le_div_iff₀ (by norm_num : (0 : ℚ) < 1000)]
    push_cast
    have : (3000 : ℚ) ≤ ((now : ℚ) - (s.highImpactStart : ℚ)) := by exact_mod_cast h3
    linarith
  · exact h
  · exact Or.inl rfl

lemma processPoseCore_streak (s : SessionRefs) (now : ℤ) (r : GestureResult) (b : Bool)
    (h : s.currentStreak = 0 ∨ 3 ≤ s.currentStreak) :
    ((processPoseCore s now r b).1.currentStreak = 0 ∨
      3 ≤ (processPoseCore s now r b).1.currentStreak) := by
  rw [processPoseCore_split]
  by_cases ht : 300 ≤ now - s.impactSampleTimer
  · rw [if_pos ht]
    exact tickUpdate_streak (frameUpdate s r b) now r b
      (by rw [(frameUpdate_fields s r b).2.2.2.2.2.2]; exact h)
  · rw [if_neg ht]
    show (frameUpdate s r b).currentStreak = 0 ∨ 3 ≤ (frameUpdate s r b).currentStreak
    rw [(frameUpdate_fields s r b).2.2.2.2.2.2]
    exact h

/-- The per-snapshot ordering of claim C8: all six aggregates are
non-decreasing. -/
def countersLE (a b : SessionState) : Prop :=
  a.gestures ≤ b.gestures ∧ a.slouchCount ≤ b.slouchCount ∧ a.smileCount ≤ b.smileCount ∧
  a.goodPostureSeconds ≤ b.goodPostureSeconds ∧ a.peakImpact ≤ b.peakImpact ∧
  a.bestStreak ≤ b.bestStreak

lemma counters_run (inputs : List FrameInput) : ∀ s : SessionRefs,
    List.Chain' (fun a b => countersLE a.2 b.2) (runSession s inputs).2 ∧
    ∀ p ∈ (runSession s inputs).2,
      s.gestureCount ≤ p.2.gestures ∧ s.slouchCount ≤ p.2.slouchCount ∧
      s.smileCount ≤ p.2.smileCount ∧
      round s.goodPostureSeconds ≤ p.2.goodPostureSeconds ∧
      s.peakImpact ≤ p.2.peakImpact ∧ s.bestStreak ≤ p.2.bestStreak := by
  induction inputs with
  | nil =>
    intro s
    simp [runSession_nil]
  | cons f rest ih =>
    intro s
    rw [runSession_cons]
    have hmono := processPoseCore_mono s f.now f.result f.isSmiling
    have hrest := ih (processPoseCore s f.now f.result f.isSmiling).1
    by_cases ht : 300 ≤ f.now - s.impactSampleTimer
    · have hsome : (processPoseCore s f.now f.result f.isSmiling).2 =
          some (tickUpdate (frameUpdate s f.result f.isSmiling) f.now f.result f.isSmiling).2 := by
        rw [processPoseCore_split, if_pos ht]
      have hfst : (processPoseCore s f.now f.result f.isSmiling).1 =
          (tickUpdate (frameUpdate s f.result f.isSmiling) f.now f.result f.isSmiling).1 := by
        rw [processPoseCore_split, if_pos ht]
      rw [hsome]
      have hsnap := tickUpdate_snap_eq (frameUpdate s f.result f.isSmiling) f.now
        f.result f.isSmiling
      rw [← hfst] at hsnap
      -- the head snapshot's fields against the refs entering the tail
      have hhead : ∀ p ∈ (runSession (processPoseCore s f.now f.result f.isSmiling).1 rest).2,
          countersLE (tickUpdate (frameUpdate s f.result f.isSmiling) f.now
            f.result f.isSmiling).2 p.2 := by
        intro p hp
        have hb := (hrest).2 p hp
        refine ⟨?_, ?_, ?_, ?_, ?_, ?_⟩
        · rw [hsnap.1]; exact hb.1
        · rw [hsnap.2.1]; exact hb.2.1
        · rw [hsnap.2.2.1]; exact hb.2.2.1
        · rw [hsnap.2.2.2.1]; exact hb.2.2.2.1
        · rw [hsnap.2.2.2.2.1]; exact hb.2.2.2.2.1
        · rw [hsnap.2.2.2.2.2.1]; exact hb.2.2.2.2.2
      constructor
      · rw [List.singleton_append, List.chain'_cons']
        exact ⟨fun y hy => hhead y (mem_of_head? hy), hrest.1⟩
      · intro p hp
        rw [List.singleton_append] at hp
        rcases List.mem_cons.1 hp with rfl | hp'
        · refine ⟨?_, ?_, ?_, ?_, ?_, ?_⟩
          · rw [hsnap.1]; exact hmono.1
          · rw [hsnap.2.1]; exact hmono.2.1
          · rw [hsnap.2.2.1]; exact hmono.2.2.1
          · rw [hsnap.2.2.2.1]; exact round_rat_mono hmono.2.2.2.1
          · rw [hsnap.2.2.2.2.1]; exact hmono.2.2.2.2.1
          · rw [hsnap.2.2.2.2.2.1]; exact hmono.2.2.2.2.2
        · have hb := hrest.2 p hp'
          refine ⟨le_trans hmono.1 hb.1, le_trans hmono.2.1 hb.2.1,
            le_trans hmono.2.2.1 hb.2.2.1,
            le_trans (round_rat_mono hmono.2.2.2.1) hb.2.2.2.1,
            le_trans hmono.2.2.2.2.1 hb.2.2.2.2.1,
            le_trans hmono.2.2.2.2.2 hb.2.2.2.2.2⟩
    · have hnone : (processPoseCore s f.now f.result f.isSmiling).2 = none := by
        rw [processPoseCore_split, if_neg ht]
      rw [hnone]
      simp only [List.nil_append]
      refine ⟨hrest.1, ?_⟩
      intro p hp
      have hb := hrest.2 p hp
      exact ⟨le_trans hmono.1 hb.1, le_trans hmono.2.1 hb.2.1,
        le_trans hmono.2.2.1 hb.2.2.1,
        le_trans (round_rat_mono hmono.2.2.2.1) hb.2.2.2.1,
        le_trans hmono.2.2.2.2.1 hb.2.2.2.2.1,
        le_trans hmono.2.2.2.2.2 hb.2.2.2.2.2⟩

/-- C8: within one active session (a `startSession` reset followed by any
stream of processed frames), the gesture count, slouch count, smile count,
good-posture seconds, peak impact and best streak are non-decreasing across
every pair of successive emitted `SessionState` snapshots. -/
theorem session_counters_monotone (s0 : SessionRefs) (t0 : ℤ) (inputs : List FrameInput) :
    List.Chain' (fun a b => countersLE a.2 b.2)
      (runSession (startSession s0 t0) inputs).2 :=
  (counters_run inputs (startSession s0 t0)).1

lemma streak_run (inputs : List FrameInput) : ∀ s : SessionRefs,
    (s.currentStreak = 0 ∨ 3 ≤ s.currentStreak) →
    ((runSession s inputs).1.currentStreak = 0 ∨
      3 ≤ (runSession s inputs).1.currentStreak) ∧
    List.Forall (fun p => p.2.streak = 0 ∨ 3 ≤ p.2.streak) (runSession s inputs).2 := by
  induction inputs with
  | nil =>
    intro s h
    exact ⟨h, trivial⟩
  | cons f rest ih =>
    intro s h
    rw [runSession_cons]
    have hstep := processPoseCore_streak s f.now f.result f.isSmiling h
    have hrest := ih (processPoseCore s f.now f.result f.isSmiling).1 hstep
    refine ⟨hrest.1, ?_⟩
    rw [List.forall_iff_forall_mem]
    intro p hp
    rcases List.mem_append.1 hp with hp' | hp'
    · by_cases ht : 300 ≤ f.now - s.impactSampleTimer
      · have hsome : (processPoseCore s f.now f.result f.isSmiling).2 =
            some (tickUpdate (frameUpdate s f.result f.isSmiling) f.now
              f.result f.isSmiling).2 := by
          rw [processPoseCore_split, if_pos ht]
        have hfst : (processPoseCore s f.now f.result f.isSmiling).1 =
            (tickUpdate (frameUpdate s f.result f.isSmiling) f.now
              f.result f.isSmiling).1 := by
          rw [processPoseCore_split, if_pos ht]
        rw [hsome] at hp'
        rcases List.mem_singleton.1 hp' with rfl
        have := (tickUpdate_snap_eq (frameUpdate s f.result f.isSmiling) f.now
          f.result f.isSmiling).2.2.2.2.2.2
        rw [this, ← hfst]
        exact hstep
      · have hnone : (processPoseCore s f.now f.result f.isSmiling).2 = none := by
          rw [processPoseCore_split, if_neg ht]
        rw [hnone] at hp'
        simp at hp'
    · exact (List.forall_iff_forall_mem.1 hrest.2) p hp'

/-- C10: in every emitted `SessionState` snapshot of a session, the current
streak is either 0 or at least 3: it becomes nonzero only through
`floor((now - highImpactStart) / 1000)` under the guard
`now - highImpactStart ≥ 3000`, and any drop below the impact threshold resets
it directly to 0. -/
theorem streak_never_one_or_two (s0 : SessionRefs) (t0 : ℤ) (inputs : List FrameInput) :
    List.Forall (fun p => p.2.streak = 0 ∨ 3 ≤ p.2.streak)
      (runSession (startSession s0 t0) inputs).2 :=
  (streak_run inputs (startSession s0 t0) (Or.inl rfl)).2

/-!
## C9: the tip selector always yields a sorted pair, slouch first
-/

lemma padStep_length (l : List CoachTip) : (padStep l).length = l.length + 1 := by
  obtain ⟨x, hx, _⟩ := padStep_eq l
  rw [hx, List.length_append]
  rfl

lemma padTips_length (l : List CoachTip) : 2 ≤ (padTips l).length := by
  by_cases h1 : l.length < 2
  · by_cases h2 : (padStep l).length < 2
    · have h : padTips l = padStep (padStep l) := by
        simp only [padTips, if_pos h1, if_pos h2]
      rw [h, padStep_length (padStep l), padStep_length l]
      omega
    · have h : padTips l = padStep l := by
        simp only [padTips, if_pos h1, if_neg h2]
      rw [padStep_length] at h2
      rw [h, padStep_length]
      omega
  · have h : padTips l = l := by
      simp only [padTips, if_neg h1]
    rw [h]
    omega

lemma padTips_nodup : ∀ {l : List CoachTip}, l.Nodup → (padTips l).Nodup := by
  intro l
  match l with
  | [] =>
    intro _
    decide
  | [t] =>
    intro _
    have hlen : (padStep [t]).length = 2 := by rw [padStep_length]; rfl
    have hp : padTips [t] = padStep [t] := by
      simp only [padTips, if_pos (by norm_num : ([t] : List CoachTip).length < 2),
        if_neg (by rw [hlen]; omega : ¬(padStep [t]).length < 2)]
    rw [hp]
    simp only [padStep]
    have hfb : ALL_TIPS.getD (([t] : List CoachTip).length % ALL_TIPS.length)
        ⟨"", "", "", 0⟩ = tipById "raise-hands" := rfl
    have hsec : ALL_TIPS.getD ((([t] : List CoachTip).length + 1) % ALL_TIPS.length)
        ⟨"", "", "", 0⟩ = tipById "extend-arms" := rfl
    rw [hfb, hsec]
    by_cases hid : (t.id == (tipById "raise-hands").id) = true
    · have hfind : (List.find? (fun x => x.id == (tipById "raise-hands").id) [t]).isNone =
          false := by
        simp [List.find?, hid]
      rw [if_neg (by rw [hfind]; simp)]
      have htid : t.id = "raise-hands" := by simpa using hid
      refine List.nodup_cons.2 ⟨?_, List.nodup_singleton _⟩
      intro hmem
      rw [List.mem_singleton.1 hmem] at htid
      exact absurd htid (by decide)
    · have hid' : (t.id == (tipById "raise-hands").id) = false := by
        rw [← Bool.not_eq_true]
        exact hid
      have hfind : (List.find? (fun x => x.id == (tipById "raise-hands").id) [t]).isNone =
          true := by
        simp [List.find?, hid']
      rw [if_pos hfind]
      refine List.nodup_cons.2 ⟨?_, List.nodup_singleton _⟩
      intro hmem
      rw [List.mem_singleton.1 hmem] at hid'
      exact absurd hid' (by decide)
  | t1 :: t2 :: rest =>
    intro h
    have hp : padTips (t1 :: t2 :: rest) = t1 :: t2 :: rest := by
      simp only [padTips,
        if_neg (by simp [List.length_cons] : ¬(t1 :: t2 :: rest).length < 2)]
    rw [hp]
    exact h

lemma allTips_priority_pos : ∀ t ∈ ALL_TIPS, 1 ≤ t.priority := by decide

lemma insertionSort_cons_of_min {a : CoachTip} {l : List CoachTip}
    (h : ∀ x ∈ l, tipLE a x) :
    List.insertionSort tipLE (a :: l) = a :: List.insertionSort tipLE l := by
  show List.orderedInsert tipLE a (List.insertionSort tipLE l) =
    a :: List.insertionSort tipLE l
  cases hs : List.insertionSort tipLE l with
  | nil => rfl
  | cons b tl =>
    have hb : b ∈ l := (List.perm_insertionSort tipLE l).subset
      (by rw [hs]; exact List.mem_cons_self b tl)
    rw [List.orderedInsert, if_pos (h b hb)]

/-- C9: for every analysis result, elapsed time and smile state,
`selectCoachTips` returns exactly two distinct tips sorted by ascending
priority, and whenever the result flags slouching the slouch-correction tip is
included as the first element. -/
theorem selectCoachTips_pair (result : GestureResult) (elapsed : ℚ) (isSmiling : Bool) :
    (selectCoachTips result elapsed isSmiling).length = 2 ∧
    (selectCoachTips result elapsed isSmiling).Nodup ∧
    List.Sorted tipLE (selectCoachTips result elapsed isSmiling) ∧
    (result.isSlouching = true →
      tipById "slouching" ∈ selectCoachTips result elapsed isSmiling ∧
      (selectCoachTips result elapsed isSmiling).head? = some (tipById "slouching")) := by
  have hcnodup : (candidateTips result elapsed isSmiling).Nodup :=
    (candidateTips_sublist result elapsed isSmiling).nodup ruleTips_nodup
  have hpadnodup := padTips_nodup hcnodup
  have hsortnodup : ((padTips (candidateTips result elapsed isSmiling)).insertionSort
      tipLE).Nodup :=
    (List.perm_insertionSort tipLE _).nodup_iff.2 hpadnodup
  have hsortlen : ((padTips (candidateTips result elapsed isSmiling)).insertionSort
      tipLE).length = (padTips (candidateTips result elapsed isSmiling)).length :=
    (List.perm_insertionSort tipLE _).length_eq
  refine ⟨?_, ?_, ?_, ?_⟩
  · show (((padTips (candidateTips result elapsed isSmiling)).insertionSort tipLE).take
      2).length = 2
    rw [List.length_take, hsortlen]
    have := padTips_length (candidateTips result elapsed isSmiling)
    omega
  · exact List.Nodup.sublist (List.take_sublist 2 _) hsortnodup
  · exact List.Pairwise.sublist (List.take_sublist 2 _) (List.sorted_insertionSort tipLE _)
  · intro hs
    -- with slouching flagged, the candidate list starts with the slouch tip
    have hc : candidateTips result elapsed isSmiling =
        tipById "slouching" :: candidateTipsRest result elapsed isSmiling := by
      simp [candidateTips, hs]
    set rest0 := candidateTipsRest result elapsed isSmiling with hrest0
    obtain ⟨suffix, hpad, _⟩ := padTips_eq (candidateTips result elapsed isSmiling)
    rw [hc] at hpad
    have hmin : ∀ x ∈ rest0 ++ suffix, tipLE (tipById "slouching") x := by
      intro x hx
      have hx' : x ∈ padTips (candidateTips result elapsed isSmiling) := by
        rw [hc, hpad]
        exact List.mem_cons_of_mem _ hx
      have hxall : x ∈ ALL_TIPS := by
        rcases padTips_mem hx' with h' | h'
        · exact candidateTips_mem h'
        · exact h'
      show (tipById "slouching").priority ≤ x.priority
      exact allTips_priority_pos x hxall
    have hsorteq : (padTips (candidateTips result elapsed isSmiling)).insertionSort tipLE =
        tipById "slouching" :: (rest0 ++ suffix).insertionSort tipLE := by
      rw [hc, hpad]
      exact insertionSort_cons_of_min hmin
    constructor
    · show tipById "slouching" ∈ ((padTips (candidateTips result elapsed
        isSmiling)).insertionSort tipLE).take 2
      rw [hsorteq]
      exact List.mem_cons_self _ _
    · show (((padTips (candidateTips result elapsed isSmiling)).insertionSort tipLE).take
        2).head? = some (tipById "slouching")
      rw [hsorteq]
      rfl

/-- The slouching analysis result used by the C9 witness. -/
def slouchSelectorResult : GestureResult :=
  { gesture := .REST
    impact := 50
    armAngleLeft := 120
    armAngleRight := 120
    shoulderWidth := 0.35
    handsAboveWaist := true
    symmetry := 85
    fidgeting := false
    isPowerMove := false
    isSlouching := true
    noseAboveShoulder := 0.3
    shoulderToEyeRatio := 4 }

/-- Witness for C9 at a concrete slouching result. -/
theorem selectCoachTips_pair_witness :
    (selectCoachTips slouchSelectorResult 10 true).length = 2 ∧
    (selectCoachTips slouchSelectorResult 10 true).head? = some (tipById "slouching") :=
  ⟨(selectCoachTips_pair slouchSelectorResult 10 true).1,
   ((selectCoachTips_pair slouchSelectorResult 10 true).2.2.2 rfl).2⟩

end GestureFlow
